import Mathlib

/-!
Shallow embedding of the listing synchronization engine of the CRM repository
(app/services/sync_service.py together with the data model in app/models/).

Conventions of the embedding:
* SQLAlchemy rows become Lean structures; the session/database becomes an
  explicit DB value threaded through the operations.  Every mutation of an
  ORM object followed by a commit is modelled as a functional replacement of
  the row with the matched primary key.
* Python exceptions raised by adapter calls are modelled with Except: an
  adapter call evaluating to Except.error e corresponds to the awaited call
  raising an exception that the service code catches.  All exception
  handlers of the source are embedded explicitly, so the engine operations
  are total functions.
* Python truthiness of an optional string (None and "" are falsy) is
  modelled by truthyStr; truthiness of an optional row number (None and 0
  are falsy) by truthyRow.
* datetime.now() is modelled by an explicit clock argument now : Nat;
  Float prices are modelled as Int, the engine only copies and compares
  them.
* The adapters (and the Google Sheets service) are external systems: their
  responses are supplied as an environment of response functions, and the
  embedding additionally records the outward adapter calls it makes in a
  trace, so that claims about which adapter operations are invoked can be
  stated.
-/

namespace CRM

/-- Platform enum from app/models/platform_listing.py. -/
inductive Platform where
  | marktplaats
  | vinted
  | depop
  | facebookMarketplace
deriving DecidableEq, Repr

/-- PlatformStatus enum from app/models/platform_listing.py. -/
inductive PlatformStatus where
  | active
  | sold
  | pending
  | deleted
  | error
deriving DecidableEq, Repr

/-- ProductStatus enum from app/models/product.py. -/
inductive ProductStatus where
  | active
  | posted
  | sold
  | pending
  | inactive
deriving DecidableEq, Repr

/-- Product row (app/models/product.py); only the columns the sync engine
reads or writes are carried.  The inventory bookkeeping columns are not
touched by the engine and are omitted. -/
structure Product where
  id : Nat
  title : String
  description : Option String
  price : Int
  images : List String
  category : Option String
  size : Option String
  condition : Option String
  brand : Option String
  color : Option String
  status : ProductStatus
deriving DecidableEq, Repr

/-- PlatformListing row (app/models/platform_listing.py).  Note that the
table declares no uniqueness constraint on (product_id, platform); only the
primary key id is unique. -/
structure PlatformListing where
  id : Nat
  product_id : Nat
  platform : Platform
  platform_listing_id : Option String
  listing_url : Option String
  platform_status : PlatformStatus
  last_synced_at : Option Nat
  sync_error : Option String
  needs_sync : Bool
deriving DecidableEq, Repr

/-- Sale row (app/models/sale.py). -/
structure Sale where
  id : Nat
  product_id : Nat
  platform : Platform
  sale_price : Int
  sale_date : Nat
  buyer_info : Option String
  shipping_cost : Int
  platform_fee : Int
  payment_fee : Int
  net_profit : Option Int
  synced_to_sheets : Bool
  sheets_row_number : Option Nat
deriving DecidableEq, Repr

/-- The database: the three tables of the engine plus autoincrement
counters for the primary keys. -/
structure DB where
  products : List Product
  listings : List PlatformListing
  sales : List Sale
  nextProductId : Nat
  nextListingId : Nat
  nextSaleId : Nat
deriving DecidableEq, Repr

/-- Python truthiness of an optional string: None and "" are falsy. -/
def truthyStr : Option String → Bool
  | none => false
  | some s => !(s == "")

/-- Python truthiness of an optional row number: None and 0 are falsy. -/
def truthyRow : Option Nat → Bool
  | none => false
  | some n => !(n == 0)

/-- The product_data dictionary built by sync_product_to_platform. -/
structure ProductData where
  title : String
  description : Option String
  price : Int
  images : List String
  category : Option String
  size : Option String
  condition : Option String
  brand : Option String
  color : Option String
deriving DecidableEq, Repr

/-- Builds the product_data dictionary from a Product row
(sync_service.py lines 58-68). -/
def productData (p : Product) : ProductData :=
  { title := p.title
    description := p.description
    price := p.price
    images := p.images
    category := p.category
    size := p.size
    condition := p.condition
    brand := p.brand
    color := p.color }

/-- One raw listing dictionary returned by an adapter get_listings call,
with the keys import_from_platform reads.  Every field is optional because
the scraped dictionaries need not carry any particular key (the Vinted
scraper, for instance, produces id: null when the anchor element is
missing). -/
structure ListingData where
  id : Option String
  title : Option String
  description : Option String
  price : Option Int
  images : Option (List String)
  category : Option String
  size : Option String
  condition : Option String
  brand : Option String
  url : Option String
deriving DecidableEq, Repr

/-- An element of a get_listings result: either a well-formed dictionary or
a malformed payload whose field access raises (listing_data.get on a
non-dictionary value raises AttributeError in the source). -/
inductive ImportItem where
  | good (d : ListingData)
  | bad (msg : String)
deriving DecidableEq, Repr

/-- The sale_data dictionary accepted by mark_product_as_sold; .get with a
default is modelled by Option.getD. -/
structure SaleData where
  sale_price : Option Int
  sale_date : Option Nat
  buyer_info : Option String
  shipping_cost : Option Int
  platform_fee : Option Int
  payment_fee : Option Int
  original_cost : Option Int
deriving DecidableEq, Repr

/-- Responses of one platform integration.  Except.error e models the call
raising exception e; the ok payloads mirror the Python return types of
app/integrations/base.py. -/
structure AdapterBehavior where
  create_listing : ProductData → Except String (Option String)
  update_listing : String → ProductData → Except String Bool
  mark_as_sold : String → Except String Bool
  check_listing_status : String → Except String (Option String)
  get_listings : Except String (List ImportItem)

/-- The environment of adapter responses, one per platform. -/
def Adapters : Type := Platform → AdapterBehavior

/-- Response of GoogleSheetsService.add_sale: row number, None, or a raised
exception.  The argument is the flattened sale row; the engine treats the
service as a black-box collaborator. -/
def SheetsBehavior : Type := Sale → Product → Except String (Option Nat)

/-- An outward adapter call recorded in the trace. -/
inductive AdapterCall where
  | createListing (platform : Platform) (data : ProductData)
  | updateListing (platform : Platform) (externalId : String)
  | markAsSold (platform : Platform) (externalId : String)
  | checkListingStatus (platform : Platform) (externalId : String)
  | getListings (platform : Platform)
deriving DecidableEq, Repr

/-- SyncService.get_platform_integration (sync_service.py lines 29-37): the
source builds a dictionary keyed by every member of the Platform enum and
calls .get, so the lookup yields an integration for every representable
platform; the integration object is represented here by its platform key
(its behavior is supplied by the Adapters environment).  dict.get would
return None only for a key outside the enum, which the Platform type cannot
express. -/
def get_platform_integration : Platform → Option Platform
  | Platform.marktplaats => some Platform.marktplaats
  | Platform.vinted => some Platform.vinted
  | Platform.depop => some Platform.depop
  | Platform.facebookMarketplace => some Platform.facebookMarketplace

/-- The existing-listing query of sync_product_to_platform (lines 53-56):
first row with matching product_id and platform. -/
def findListing (db : DB) (pid : Nat) (platform : Platform) : Option PlatformListing :=
  db.listings.find? (fun l => l.product_id == pid && l.platform == platform)

/-- Committing a mutation of an attached PlatformListing row: the row with
the same primary key is replaced. -/
def replaceListing (db : DB) (l : PlatformListing) : DB :=
  { db with listings := db.listings.map (fun x => if x.id == l.id then l else x) }

/-- session.add of a new PlatformListing followed by commit: the row is
appended with the next primary key (the id is already filled in by the
caller from nextListingId). -/
def addListing (db : DB) (l : PlatformListing) : DB :=
  { db with listings := db.listings ++ [l], nextListingId := db.nextListingId + 1 }

/-- Committing a mutation of an attached Product row. -/
def replaceProduct (db : DB) (p : Product) : DB :=
  { db with products := db.products.map (fun x => if x.id == p.id then p else x) }

/-- session.add of a new Product followed by flush: the row is appended and
its primary key assigned. -/
def addProduct (db : DB) (p : Product) : DB :=
  { db with products := db.products ++ [p], nextProductId := db.nextProductId + 1 }

/-- session.add of a new Sale followed by commit. -/
def addSale (db : DB) (s : Sale) : DB :=
  { db with sales := db.sales ++ [s], nextSaleId := db.nextSaleId + 1 }

/-- SyncService.sync_product_to_platform (sync_service.py lines 39-122).
Returns the Optional[PlatformListing] result, the database after the
commits of the taken branch, and the adapter calls made.  The try/except of
lines 70-122 is embedded by handling the Except.error outcome of each
adapter call exactly as the handler does: record str(e) in sync_error when
a row exists, and return None; no exception escapes. -/
def sync_product_to_platform (A : Adapters) (now : Nat) (db : DB)
    (product : Product) (platform : Platform) :
    Option PlatformListing × DB × List AdapterCall :=
  match get_platform_integration platform with
  | none => (none, db, [])
  | some integ =>
    let existing_listing := findListing db product.id platform
    let pd := productData product
    match existing_listing with
    | some l =>
      if truthyStr l.platform_listing_id then
        -- update existing listing (lines 71-87)
        let eid := l.platform_listing_id.getD ""
        match (A integ).update_listing eid pd with
        | Except.ok true =>
          let l2 := { l with last_synced_at := some now, needs_sync := false,
                             sync_error := none }
          (some l2, replaceListing db l2, [AdapterCall.updateListing integ eid])
        | Except.ok false =>
          let l2 := { l with sync_error := some "Failed to update listing" }
          (none, replaceListing db l2, [AdapterCall.updateListing integ eid])
        | Except.error e =>
          let l2 := { l with sync_error := some e }
          (none, replaceListing db l2, [AdapterCall.updateListing integ eid])
      else
        -- create new listing, reusing the existing row (lines 88-115)
        match (A integ).create_listing pd with
        | Except.error e =>
          let l2 := { l with sync_error := some e }
          (none, replaceListing db l2, [AdapterCall.createListing integ pd])
        | Except.ok r =>
          if truthyStr r then
            let l2 := { l with platform_listing_id := r,
                               last_synced_at := some now, needs_sync := false,
                               sync_error := none }
            (some l2, replaceListing db l2, [AdapterCall.createListing integ pd])
          else
            let l2 := { l with sync_error := some "Failed to create listing" }
            (none, replaceListing db l2, [AdapterCall.createListing integ pd])
    | none =>
      -- create new listing with no pre-existing row (lines 88-115)
      match (A integ).create_listing pd with
      | Except.error _ => (none, db, [AdapterCall.createListing integ pd])
      | Except.ok r =>
        if truthyStr r then
          let l2 : PlatformListing :=
            { id := db.nextListingId
              product_id := product.id
              platform := platform
              platform_listing_id := r
              listing_url := none
              platform_status := PlatformStatus.active
              last_synced_at := some now
              sync_error := none
              needs_sync := false }
          (some l2, addListing db l2, [AdapterCall.createListing integ pd])
        else (none, db, [AdapterCall.createListing integ pd])

/-- Insertion into the results dictionary of cross_post_product: a repeated
key overwrites in place, a new key is appended. -/
def dictInsert (k : Platform) (v : Option PlatformListing) :
    List (Platform × Option PlatformListing) → List (Platform × Option PlatformListing)
  | [] => [(k, v)]
  | (k2, v2) :: rest =>
    if k2 == k then (k2, v) :: rest else (k2, v2) :: dictInsert k v rest

/-- The platform loop of SyncService.cross_post_product (lines 134-136). -/
def crossPostLoop (A : Adapters) (now : Nat) (product : Product) :
    List Platform → DB → List (Platform × Option PlatformListing) →
    List AdapterCall → List (Platform × Option PlatformListing) × DB × List AdapterCall
  | [], db, res, tr => (res, db, tr)
  | p :: rest, db, res, tr =>
    let step := sync_product_to_platform A now db product p
    crossPostLoop A now product rest step.2.1 (dictInsert p step.1 res) (tr ++ step.2.2)

/-- SyncService.cross_post_product (sync_service.py lines 124-138). -/
def cross_post_product (A : Adapters) (now : Nat) (db : DB)
    (product : Product) (platforms : List Platform) :
    List (Platform × Option PlatformListing) × DB × List AdapterCall :=
  crossPostLoop A now product platforms db [] []

/-- The per-listing loop of mark_product_as_sold (lines 162-171).  A
listing is touched only when its integration is found and its external id
is truthy; platform_status is assigned after the awaited mark_as_sold call,
so the assignment is skipped when the call raises. -/
def markListingsLoop (A : Adapters) :
    List PlatformListing → DB → List AdapterCall → DB × List AdapterCall
  | [], db, tr => (db, tr)
  | l :: rest, db, tr =>
    match get_platform_integration l.platform with
    | none => markListingsLoop A rest db tr
    | some integ =>
      if truthyStr l.platform_listing_id then
        let eid := l.platform_listing_id.getD ""
        match (A integ).mark_as_sold eid with
        | Except.ok _ =>
          markListingsLoop A rest
            (replaceListing db { l with platform_status := PlatformStatus.sold })
            (tr ++ [AdapterCall.markAsSold integ eid])
        | Except.error _ =>
          -- exception: the handler only logs; platform_status stays as it was
          markListingsLoop A rest db (tr ++ [AdapterCall.markAsSold integ eid])
      else markListingsLoop A rest db tr

/-- SyncService.sync_sale_to_sheets (sync_service.py lines 199-227): when
add_sale yields a truthy row number the sale row is updated and committed;
a falsy result or a raised exception leaves it untouched.  The result is
the final committed state of the sale row. -/
def sync_sale_to_sheets (sheets : SheetsBehavior) (sale : Sale) (product : Product) : Sale :=
  match sheets sale product with
  | Except.error _ => sale
  | Except.ok r =>
    if truthyRow r then
      { sale with synced_to_sheets := true, sheets_row_number := r }
    else sale

/-- The Sale row created by mark_product_as_sold (lines 174-195), in its
final committed state: built from sale_data with the .get defaults of the
source, net_profit filled in by sale.calculate_net_profit, and then passed
through sync_sale_to_sheets (the source commits the row and lets the sheets
sync mutate and re-commit the same attached row, which amounts to one
append of the row as the sheets sync leaves it). -/
def saleRow (sheets : SheetsBehavior) (now : Nat) (nextId : Nat)
    (product : Product) (product_id : Nat) (sold_on_platform : Platform)
    (sd : SaleData) : Sale :=
  let sale0 : Sale :=
    { id := nextId
      product_id := product_id
      platform := sold_on_platform
      sale_price := sd.sale_price.getD product.price
      sale_date := sd.sale_date.getD now
      buyer_info := sd.buyer_info
      shipping_cost := sd.shipping_cost.getD 0
      platform_fee := sd.platform_fee.getD 0
      payment_fee := sd.payment_fee.getD 0
      net_profit := none
      synced_to_sheets := false
      sheets_row_number := none }
  let original_cost := sd.original_cost.getD 0
  -- sale.calculate_net_profit(original_cost)
  let profit := sale0.sale_price - sale0.shipping_cost - sale0.platform_fee -
    sale0.payment_fee - original_cost
  let sale1 := { sale0 with net_profit := some profit }
  sync_sale_to_sheets sheets sale1 product

/-- SyncService.mark_product_as_sold (sync_service.py lines 140-197).
Returns the boolean result, the database after all commits, and the
trace. -/
def mark_product_as_sold (A : Adapters) (sheets : SheetsBehavior) (now : Nat)
    (db : DB) (product_id : Nat) (sold_on_platform : Platform)
    (sale_data : Option SaleData) : Bool × DB × List AdapterCall :=
  match db.products.find? (fun p => p.id == product_id) with
  | none => (false, db, [])
  | some product =>
    let db1 := replaceProduct db { product with status := ProductStatus.sold }
    let listings := db1.listings.filter (fun l => l.product_id == product_id)
    let step := markListingsLoop A listings db1 []
    match sale_data with
    | none => (true, step.1, step.2)
    | some sd =>
      (true,
       addSale step.1
         (saleRow sheets now step.1.nextSaleId product product_id sold_on_platform sd),
       step.2)

/-- An entry of the list returned by check_for_sold_items. -/
structure SoldItem where
  product_id : Nat
  title : String
  platform : Platform
deriving DecidableEq, Repr

/-- The sale_data dictionary synthesized by check_for_sold_items
(line 259). -/
def synthesizedSaleData (price : Int) (now : Nat) : SaleData :=
  { sale_price := some price
    sale_date := some now
    buyer_info := none
    shipping_cost := none
    platform_fee := none
    payment_fee := none
    original_cost := none }

/-- The inner listing loop of check_for_sold_items (lines 246-271): skip
listings without integration or external id; a raised check is logged and
the loop continues; on a "sold" status the product is marked sold, the item
recorded, and the loop breaks. -/
def checkListingsLoop (A : Adapters) (sheets : SheetsBehavior) (now : Nat)
    (product : Product) :
    List PlatformListing → DB → List AdapterCall →
    DB × Option SoldItem × List AdapterCall
  | [], db, tr => (db, none, tr)
  | l :: rest, db, tr =>
    match get_platform_integration l.platform with
    | none => checkListingsLoop A sheets now product rest db tr
    | some integ =>
      if truthyStr l.platform_listing_id then
        let eid := l.platform_listing_id.getD ""
        match (A integ).check_listing_status eid with
        | Except.error _ =>
          checkListingsLoop A sheets now product rest db
            (tr ++ [AdapterCall.checkListingStatus integ eid])
        | Except.ok st =>
          if st == some "sold" then
            let step := mark_product_as_sold A sheets now db product.id l.platform
              (some (synthesizedSaleData product.price now))
            (step.2.1,
             some { product_id := product.id, title := product.title, platform := l.platform },
             tr ++ [AdapterCall.checkListingStatus integ eid] ++ step.2.2)
          else
            checkListingsLoop A sheets now product rest db
              (tr ++ [AdapterCall.checkListingStatus integ eid])
      else checkListingsLoop A sheets now product rest db tr

/-- The outer product loop of check_for_sold_items (lines 240-271). -/
def checkProductsLoop (A : Adapters) (sheets : SheetsBehavior) (now : Nat) :
    List Product → DB → List SoldItem → List AdapterCall →
    List SoldItem × DB × List AdapterCall
  | [], db, acc, tr => (acc, db, tr)
  | p :: rest, db, acc, tr =>
    let listings := db.listings.filter
      (fun l => l.product_id == p.id && l.platform_status == PlatformStatus.active)
    let step := checkListingsLoop A sheets now p listings db []
    checkProductsLoop A sheets now rest step.1
      (acc ++ step.2.1.toList) (tr ++ step.2.2)

/-- SyncService.check_for_sold_items (sync_service.py lines 229-273). -/
def check_for_sold_items (A : Adapters) (sheets : SheetsBehavior) (now : Nat)
    (db : DB) : List SoldItem × DB × List AdapterCall :=
  let active := db.products.filter (fun p => p.status == ProductStatus.active)
  checkProductsLoop A sheets now active db [] []

/-- The listing loop of sync_all_products (lines 283-285): listing.product
is the row the foreign key references. -/
def syncAllLoop (A : Adapters) (now : Nat) :
    List PlatformListing → DB → List AdapterCall → DB × List AdapterCall
  | [], db, tr => (db, tr)
  | l :: rest, db, tr =>
    match db.products.find? (fun p => p.id == l.product_id) with
    | none => syncAllLoop A now rest db tr
    | some p =>
      let step := sync_product_to_platform A now db p l.platform
      syncAllLoop A now rest step.2.1 (tr ++ step.2.2)

/-- SyncService.sync_all_products (sync_service.py lines 275-285). -/
def sync_all_products (A : Adapters) (now : Nat) (db : DB) : DB × List AdapterCall :=
  syncAllLoop A now (db.listings.filter (fun l => l.needs_sync)) db []

/-- The item loop of import_from_platform (lines 300-338), operating inside
one transaction: the first return component is some of the working database
when the loop finishes, and none when an item raises (the accumulated
products are returned either way).  The existing-listing query compares
platform_listing_id with the SQL semantics of the source: a comparison
against NULL never matches. -/
def importLoop (platform : Platform) (now : Nat) :
    List ImportItem → DB → List Product → Option DB × List Product
  | [], db, acc => (some db, acc.reverse)
  | ImportItem.bad _ :: _, _, acc => (none, acc.reverse)
  | ImportItem.good d :: rest, db, acc =>
    let existing := match d.id with
      | none => none
      | some s => db.listings.find?
          (fun (l : PlatformListing) => l.platform == platform && l.platform_listing_id == some s)
    match existing with
    | some _ => importLoop platform now rest db acc
    | none =>
      let product : Product :=
        { id := db.nextProductId
          title := d.title.getD ""
          description := some (d.description.getD "")
          price := d.price.getD 0
          images := d.images.getD []
          category := d.category
          size := d.size
          condition := d.condition
          brand := d.brand
          color := none
          status := ProductStatus.active }
      let db1 := addProduct db product
      let listing : PlatformListing :=
        { id := db1.nextListingId
          product_id := product.id
          platform := platform
          platform_listing_id := d.id
          listing_url := d.url
          platform_status := PlatformStatus.active
          last_synced_at := some now
          sync_error := none
          needs_sync := false }
      importLoop platform now rest (addListing db1 listing) (product :: acc)

/-- SyncService.import_from_platform (sync_service.py lines 287-346).  The
only commit is at line 340, so the rollback of the exception handler
restores the database to its state at the start of the call, while the
accumulated imported_products list is still returned.  A raised
get_listings is caught the same way with nothing accumulated. -/
def import_from_platform (A : Adapters) (now : Nat) (db : DB)
    (platform : Platform) : List Product × DB × List AdapterCall :=
  match get_platform_integration platform with
  | none => ([], db, [])
  | some integ =>
    match (A integ).get_listings with
    | Except.error _ => ([], db, [AdapterCall.getListings integ])
    | Except.ok items =>
      match importLoop platform now items db [] with
      | (some db2, acc) => (acc, db2, [AdapterCall.getListings integ])
      | (none, acc) => (acc, db, [AdapterCall.getListings integ])

/-! ### Invariants, failure predicates and the engine step relation -/

/-- Primary key, foreign key and platform of a listing row: the part of a
row no engine operation ever rewrites in place. -/
def lkey (l : PlatformListing) : Nat × Nat × Platform :=
  (l.id, l.product_id, l.platform)

/-- Well-formedness of the database: primary keys are distinct and below
the autoincrement counters, foreign keys point below the product counter,
and at most one listing row exists per (product_id, platform).  These hold
of any database produced by the engine from an empty store. -/
def WF (db : DB) : Prop :=
  (∀ p ∈ db.products, p.id < db.nextProductId) ∧
  ((db.products.map Product.id).Pairwise (fun a b => a ≠ b)) ∧
  (∀ l ∈ db.listings, l.id < db.nextListingId) ∧
  (∀ l ∈ db.listings, l.product_id < db.nextProductId) ∧
  ((db.listings.map PlatformListing.id).Pairwise (fun a b => a ≠ b)) ∧
  ((db.listings.map (fun l => (l.product_id, l.platform))).Pairwise (fun a b => a ≠ b)) ∧
  (∀ s ∈ db.sales, s.product_id < db.nextProductId)

/-- Every sale row references a product whose status is SOLD. -/
def SalesSold (db : DB) : Prop :=
  ∀ s ∈ db.sales, ∀ p ∈ db.products, p.id = s.product_id →
    p.status = ProductStatus.sold

/-- Every SOLD product is still present and still SOLD in the second
database: sale status is never reverted. -/
def SoldPersists (db db2 : DB) : Prop :=
  ∀ p ∈ db.products, p.status = ProductStatus.sold →
    ∃ p2 ∈ db2.products, p2.id = p.id ∧ p2.status = ProductStatus.sold

/-- An adapter create_listing call fails in the Python sense: it raises or
returns a falsy id. -/
def createFails (b : AdapterBehavior) (pd : ProductData) : Bool :=
  match b.create_listing pd with
  | Except.error _ => true
  | Except.ok r => !(truthyStr r)

/-- An adapter update_listing call fails: it raises or returns False. -/
def updateFails (b : AdapterBehavior) (eid : String) (pd : ProductData) : Bool :=
  match b.update_listing eid pd with
  | Except.error _ => true
  | Except.ok s => !s

/-- The single adapter call sync_product_to_platform will make for this
database state fails: update_listing when a listing with a truthy external
id exists, create_listing otherwise. -/
def relevantCallFails (b : AdapterBehavior) (db : DB) (product : Product)
    (platform : Platform) : Bool :=
  match findListing db product.id platform with
  | some l =>
    if truthyStr l.platform_listing_id then
      updateFails b (l.platform_listing_id.getD "") (productData product)
    else createFails b (productData product)
  | none => createFails b (productData product)

/-- One operation of the synchronization engine, as invokable through its
callers (app/api/products.py and app/api/sync.py): the product handed to a
single sync or a cross-post is a row fetched from the same database. -/
inductive EngineStep (A : Adapters) (sheets : SheetsBehavior) (now : Nat) :
    DB → DB → Prop
  | syncOne (db : DB) (product : Product) (platform : Platform)
      (hp : product ∈ db.products) :
      EngineStep A sheets now db
        (sync_product_to_platform A now db product platform).2.1
  | crossPost (db : DB) (product : Product) (platforms : List Platform)
      (hp : product ∈ db.products) :
      EngineStep A sheets now db
        (cross_post_product A now db product platforms).2.1
  | markSold (db : DB) (product_id : Nat) (platform : Platform)
      (sd : Option SaleData) :
      EngineStep A sheets now db
        (mark_product_as_sold A sheets now db product_id platform sd).2.1
  | checkSold (db : DB) :
      EngineStep A sheets now db (check_for_sold_items A sheets now db).2.1
  | syncAll (db : DB) :
      EngineStep A sheets now db (sync_all_products A now db).1
  | importFrom (db : DB) (platform : Platform) :
      EngineStep A sheets now db (import_from_platform A now db platform).2.1

/-! ### Concrete fixtures used to evaluate the operations on closed inputs -/

/-- A concrete product: the Jacket of the scenario in the specification. -/
def jacket : Product :=
  { id := 1
    title := "Jacket"
    description := none
    price := 40
    images := []
    category := none
    size := none
    condition := none
    brand := none
    color := none
    status := ProductStatus.active }

/-- An adapter all of whose calls succeed. -/
def okAdapter : AdapterBehavior :=
  { create_listing := fun _ => Except.ok (some "A1")
    update_listing := fun _ _ => Except.ok true
    mark_as_sold := fun _ => Except.ok true
    check_listing_status := fun _ => Except.ok (some "active")
    get_listings := Except.ok [] }

/-- An adapter all of whose calls raise. -/
def downAdapter : AdapterBehavior :=
  { create_listing := fun _ => Except.error "network down"
    update_listing := fun _ _ => Except.error "network down"
    mark_as_sold := fun _ => Except.error "network down"
    check_listing_status := fun _ => Except.error "network down"
    get_listings := Except.error "network down" }

/-- Every platform succeeds. -/
def okAdapters : Adapters := fun _ => okAdapter

/-- Every platform raises. -/
def downAdapters : Adapters := fun _ => downAdapter

/-- Marktplaats raises, every other platform succeeds. -/
def mixedAdapters : Adapters := fun p =>
  match p with
  | Platform.marktplaats => downAdapter
  | _ => okAdapter

/-- Every platform reports status "sold". -/
def soldAdapters : Adapters := fun _ =>
  { okAdapter with check_listing_status := fun _ => Except.ok (some "sold") }

/-- A sheets service whose add_sale returns no row number. -/
def noSheets : SheetsBehavior := fun _ _ => Except.ok none

/-- The empty store. -/
def emptyDB : DB :=
  { products := []
    listings := []
    sales := []
    nextProductId := 1
    nextListingId := 1
    nextSaleId := 1 }

/-- A store holding only the Jacket, with no listings. -/
def dbJacket : DB :=
  { products := [jacket]
    listings := []
    sales := []
    nextProductId := 2
    nextListingId := 1
    nextSaleId := 1 }

/-- An active Vinted listing of the Jacket with a truthy external id. -/
def listingV : PlatformListing :=
  { id := 1
    product_id := 1
    platform := Platform.vinted
    platform_listing_id := some "V1"
    listing_url := none
    platform_status := PlatformStatus.active
    last_synced_at := none
    sync_error := none
    needs_sync := false }

/-- An active Depop listing of the Jacket with a truthy external id. -/
def listingD : PlatformListing :=
  { listingV with
      id := 2
      platform := Platform.depop
      platform_listing_id := some "D1" }

/-- The Jacket listed on Vinted and Depop. -/
def dbTwoListings : DB :=
  { dbJacket with listings := [listingV, listingD], nextListingId := 3 }

/-- The Jacket listed on Vinted only. -/
def dbOneListing : DB :=
  { dbJacket with listings := [listingV], nextListingId := 2 }

/-- A second listing row for the same (product, platform) pair as listingV
under a fresh primary key. -/
def dupListing : PlatformListing :=
  { listingV with
      id := 2
      platform_listing_id := some "V2" }

/-- The sale_data dictionary an operator would submit for the Jacket. -/
def saleData40 : SaleData :=
  { sale_price := some 40
    sale_date := some 100
    buyer_info := none
    shipping_cost := none
    platform_fee := none
    payment_fee := none
    original_cost := none }

/-- An external listing dictionary carrying no id key, the shape the Vinted
scraper produces when the anchor element is missing. -/
def shirtNoId : ListingData :=
  { id := none
    title := some "Shirt"
    description := none
    price := some 5
    images := none
    category := none
    size := none
    condition := none
    brand := none
    url := none }

/-- The same external listing dictionary with a truthy id. -/
def shirtWithId : ListingData :=
  { shirtNoId with id := some "X1" }

/-- Adapters whose get_listings returns the id-less external listing. -/
def importNoIdAdapters : Adapters := fun _ =>
  { okAdapter with get_listings := Except.ok [ImportItem.good shirtNoId] }

/-- Adapters whose get_listings returns the external listing with id "X1". -/
def importWithIdAdapters : Adapters := fun _ =>
  { okAdapter with get_listings := Except.ok [ImportItem.good shirtWithId] }

/-- Adapters whose get_listings yields one well-formed item and then a
malformed payload that raises when accessed. -/
def importCrashAdapters : Adapters := fun _ =>
  { okAdapter with
      get_listings := Except.ok [ImportItem.good shirtWithId, ImportItem.bad "not a dict"] }

/-- The Product row importing the "Shirt" external listing creates in the
empty store. -/
def shirtProduct : Product :=
  { id := 1
    title := "Shirt"
    description := some ""
    price := 5
    images := []
    category := none
    size := none
    condition := none
    brand := none
    color := none
    status := ProductStatus.active }

/-- The ListingRecord importing the "Shirt" external listing with id "X1"
creates in the empty store. -/
def shirtListing : PlatformListing :=
  { id := 1
    product_id := 1
    platform := Platform.vinted
    platform_listing_id := some "X1"
    listing_url := none
    platform_status := PlatformStatus.active
    last_synced_at := some 0
    sync_error := none
    needs_sync := false }

/-- The row a first successful push of the Jacket to Vinted creates. -/
def jacketVintedRow : PlatformListing :=
  { id := 1
    product_id := 1
    platform := Platform.vinted
    platform_listing_id := some "A1"
    listing_url := none
    platform_status := PlatformStatus.active
    last_synced_at := some 0
    sync_error := none
    needs_sync := false }

/-! ### Basic lemmas -/

theorem get_platform_integration_eq (p : Platform) :
    get_platform_integration p = some p := by
  cases p <;> rfl

/-- Two members of a list whose images under f are pairwise distinct and
that agree on f are the same element. -/
theorem eq_of_pairwise_map_ne {α β : Type} (f : α → β) {xs : List α}
    (h : (xs.map f).Pairwise (fun a b => a ≠ b)) {x y : α}
    (hx : x ∈ xs) (hy : y ∈ xs) (hf : f x = f y) : x = y := by
  induction xs with
  | nil => cases hx
  | cons a t ih =>
    rw [List.map_cons, List.pairwise_cons] at h
    rcases List.mem_cons.mp hx with hxa | hxt <;>
      rcases List.mem_cons.mp hy with hya | hyt
    · rw [hxa, hya]
    · subst hxa
      exact absurd hf (h.1 (f y) (List.mem_map_of_mem f hyt))
    · subst hya
      exact absurd hf.symm (h.1 (f x) (List.mem_map_of_mem f hxt))
    · exact ih h.2 hxt hyt

theorem replaceListing_products (db : DB) (l : PlatformListing) :
    (replaceListing db l).products = db.products := rfl

theorem replaceListing_sales (db : DB) (l : PlatformListing) :
    (replaceListing db l).sales = db.sales := rfl

/-- Replacing a row by primary key never changes the list of primary
keys. -/
theorem replaceListing_map_id (db : DB) (l : PlatformListing) :
    (replaceListing db l).listings.map PlatformListing.id =
      db.listings.map PlatformListing.id := by
  simp only [replaceListing, List.map_map]
  refine List.map_congr_left ?_
  intro x _
  by_cases hid : (x.id == l.id) = true
  · simp only [Function.comp_apply, hid, if_pos]
    exact (eq_of_beq hid).symm
  · simp only [Function.comp_apply, hid]
    rfl

/-- Replacing a row whose (id, product_id, platform) triple is already the
triple of a row of the table preserves the list of triples, provided the
primary keys are distinct. -/
theorem replaceListing_map_lkey (db : DB) (l2 : PlatformListing)
    (hdist : (db.listings.map PlatformListing.id).Pairwise (fun a b => a ≠ b))
    (hw : ∃ w ∈ db.listings, w.id = l2.id ∧ w.product_id = l2.product_id ∧
      w.platform = l2.platform) :
    (replaceListing db l2).listings.map lkey = db.listings.map lkey := by
  rcases hw with ⟨w, hwmem, hwid, hwpid, hwplat⟩
  simp only [replaceListing, List.map_map]
  refine List.map_congr_left ?_
  intro x hx
  by_cases hid : (x.id == l2.id) = true
  · have hxid : x.id = l2.id := eq_of_beq hid
    have hxw : x = w :=
      eq_of_pairwise_map_ne PlatformListing.id hdist hx hwmem (by rw [hxid, hwid])
    simp only [Function.comp_apply, hid, if_pos, lkey]
    rw [hxw, hwid, hwpid, hwplat]
  · simp only [Function.comp_apply, hid]
    rfl

theorem addListing_map_lkey (db : DB) (l : PlatformListing) :
    (addListing db l).listings.map lkey = db.listings.map lkey ++ [lkey l] := by
  simp [addListing]

/-- The list of primary keys is determined by the list of triples. -/
theorem map_id_of_map_lkey {xs ys : List PlatformListing}
    (h : ys.map lkey = xs.map lkey) :
    ys.map PlatformListing.id = xs.map PlatformListing.id := by
  have h2 := congrArg (List.map (fun t : Nat × Nat × Platform => t.1)) h
  simpa [List.map_map, Function.comp, lkey] using h2

/-- The list of foreign keys is determined by the list of triples. -/
theorem map_pid_of_map_lkey {xs ys : List PlatformListing}
    (h : ys.map lkey = xs.map lkey) :
    ys.map (fun l => l.product_id) = xs.map (fun l => l.product_id) := by
  have h2 := congrArg (List.map (fun t : Nat × Nat × Platform => t.2.1)) h
  simpa [List.map_map, Function.comp, lkey] using h2

/-- The list of (product_id, platform) pairs is determined by the list of
triples. -/
theorem map_key_of_map_lkey {xs ys : List PlatformListing}
    (h : ys.map lkey = xs.map lkey) :
    ys.map (fun l => (l.product_id, l.platform)) =
      xs.map (fun l => (l.product_id, l.platform)) := by
  have h2 := congrArg (List.map (fun t : Nat × Nat × Platform => t.2)) h
  simpa [List.map_map, Function.comp, lkey] using h2

theorem forall_id_lt_of_map_eq {xs ys : List PlatformListing} {n : Nat}
    (hmap : ys.map PlatformListing.id = xs.map PlatformListing.id)
    (h : ∀ l ∈ xs, l.id < n) : ∀ l ∈ ys, l.id < n := by
  intro l hl
  have hmem : l.id ∈ xs.map PlatformListing.id := by
    rw [← hmap]
    exact List.mem_map_of_mem _ hl
  rcases List.mem_map.mp hmem with ⟨x, hx, hxe⟩
  rw [← hxe]
  exact h x hx

theorem forall_pid_lt_of_map_eq {xs ys : List PlatformListing} {n : Nat}
    (hmap : ys.map (fun l => l.product_id) = xs.map (fun l => l.product_id))
    (h : ∀ l ∈ xs, l.product_id < n) : ∀ l ∈ ys, l.product_id < n := by
  intro l hl
  have hmem : l.product_id ∈ xs.map (fun l => l.product_id) := by
    rw [← hmap]
    exact List.mem_map_of_mem _ hl
  rcases List.mem_map.mp hmem with ⟨x, hx, hxe⟩
  rw [← hxe]
  exact h x hx

/-- Replacing a product row by primary key preserves the list of primary
keys. -/
theorem replaceProduct_map_id (db : DB) (p : Product) :
    (replaceProduct db p).products.map Product.id =
      db.products.map Product.id := by
  simp only [replaceProduct, List.map_map]
  refine List.map_congr_left ?_
  intro x _
  by_cases hid : (x.id == p.id) = true
  · simp only [Function.comp_apply, hid, if_pos]
    exact (eq_of_beq hid).symm
  · simp only [Function.comp_apply, hid]
    rfl

theorem forall_product_id_lt_of_map_eq {xs ys : List Product} {n : Nat}
    (hmap : ys.map Product.id = xs.map Product.id)
    (h : ∀ p ∈ xs, p.id < n) : ∀ p ∈ ys, p.id < n := by
  intro p hp
  have hmem : p.id ∈ xs.map Product.id := by
    rw [← hmap]
    exact List.mem_map_of_mem _ hp
  rcases List.mem_map.mp hmem with ⟨x, hx, hxe⟩
  rw [← hxe]
  exact h x hx

/-! ### Shape of a single sync -/

/-- Case analysis of sync_product_to_platform: the database is unchanged,
or one listing row is rewritten in place keeping its primary key, foreign
key and platform, or a fresh row is appended for a pair that had no row. -/
theorem sync_shape (A : Adapters) (now : Nat) (db : DB) (product : Product)
    (platform : Platform) :
    (sync_product_to_platform A now db product platform).2.1 = db ∨
    (∃ l l2, findListing db product.id platform = some l ∧
      l2.id = l.id ∧ l2.product_id = l.product_id ∧ l2.platform = l.platform ∧
      (sync_product_to_platform A now db product platform).2.1 =
        replaceListing db l2) ∨
    (∃ l2, findListing db product.id platform = none ∧
      l2.id = db.nextListingId ∧ l2.product_id = product.id ∧
      l2.platform = platform ∧
      (sync_product_to_platform A now db product platform).2.1 =
        addListing db l2) := by
  rcases hfl : findListing db product.id platform with _ | l0
  · rcases hc : (A platform).create_listing (productData product) with e | r
    · left
      simp [sync_product_to_platform, get_platform_integration_eq, hfl, hc]
    · by_cases htr : truthyStr r = true
      · right; right
        refine ⟨{ id := db.nextListingId
                  product_id := product.id
                  platform := platform
                  platform_listing_id := r
                  listing_url := none
                  platform_status := PlatformStatus.active
                  last_synced_at := some now
                  sync_error := none
                  needs_sync := false }, rfl, rfl, rfl, rfl, ?_⟩
        simp [sync_product_to_platform, get_platform_integration_eq, hfl, hc, htr]
      · left
        simp [sync_product_to_platform, get_platform_integration_eq, hfl, hc, htr]
  · by_cases ht0 : truthyStr l0.platform_listing_id = true
    · rcases hu : (A platform).update_listing (l0.platform_listing_id.getD "")
          (productData product) with e | b
      · right; left
        refine ⟨l0, { l0 with sync_error := some e }, rfl, rfl, rfl, rfl, ?_⟩
        simp [sync_product_to_platform, get_platform_integration_eq, hfl, ht0, hu]
      · cases b
        · right; left
          refine ⟨l0, { l0 with sync_error := some "Failed to update listing" },
            rfl, rfl, rfl, rfl, ?_⟩
          simp [sync_product_to_platform, get_platform_integration_eq, hfl, ht0, hu]
        · right; left
          refine ⟨l0, { l0 with last_synced_at := some now, needs_sync := false, sync_error := none },
            rfl, rfl, rfl, rfl, ?_⟩
          simp [sync_product_to_platform, get_platform_integration_eq, hfl, ht0, hu]
    · rcases hc : (A platform).create_listing (productData product) with e | r
      · right; left
        refine ⟨l0, { l0 with sync_error := some e }, rfl, rfl, rfl, rfl, ?_⟩
        simp [sync_product_to_platform, get_platform_integration_eq, hfl, ht0, hc]
      · by_cases htr : truthyStr r = true
        · right; left
          refine ⟨l0, { l0 with platform_listing_id := r, last_synced_at := some now, needs_sync := false, sync_error := none },
            rfl, rfl, rfl, rfl, ?_⟩
          simp [sync_product_to_platform, get_platform_integration_eq, hfl, ht0,
            hc, htr]
        · right; left
          refine ⟨l0, { l0 with sync_error := some "Failed to create listing" },
            rfl, rfl, rfl, rfl, ?_⟩
          simp [sync_product_to_platform, get_platform_integration_eq, hfl, ht0,
            hc, htr]

/-- A single sync never touches the products table, the sales table, or
their autoincrement counters. -/
theorem sync_untouched (A : Adapters) (now : Nat) (db : DB) (product : Product)
    (platform : Platform) :
    (sync_product_to_platform A now db product platform).2.1.products =
      db.products ∧
    (sync_product_to_platform A now db product platform).2.1.sales = db.sales ∧
    (sync_product_to_platform A now db product platform).2.1.nextProductId =
      db.nextProductId ∧
    (sync_product_to_platform A now db product platform).2.1.nextSaleId =
      db.nextSaleId := by
  rcases sync_shape A now db product platform with h | ⟨l, l2, _, _, _, _, h⟩ |
    ⟨l2, _, _, _, _, h⟩ <;> rw [h] <;> exact ⟨rfl, rfl, rfl, rfl⟩

/-- A single sync preserves well-formedness of the database when the synced
product is a row of it. -/
theorem sync_WF (A : Adapters) (now : Nat) (db : DB) (product : Product)
    (platform : Platform) (hp : product ∈ db.products) (hwf : WF db) :
    WF (sync_product_to_platform A now db product platform).2.1 := by
  obtain ⟨h1, h2, h3, h4, h5, h6, h7⟩ := hwf
  rcases sync_shape A now db product platform with h |
    ⟨l, l2, hfl, hid, hpid, hplat, h⟩ | ⟨l2, hfl, hid, hpid, hplat, h⟩
  · rw [h]
    exact ⟨h1, h2, h3, h4, h5, h6, h7⟩
  · rw [h]
    have hlmem : l ∈ db.listings := List.mem_of_find?_eq_some hfl
    have hlk : (replaceListing db l2).listings.map lkey = db.listings.map lkey :=
      replaceListing_map_lkey db l2 h5 ⟨l, hlmem, hid.symm, hpid.symm, hplat.symm⟩
    have hids := map_id_of_map_lkey hlk
    have hpids := map_pid_of_map_lkey hlk
    have hkeys := map_key_of_map_lkey hlk
    refine ⟨h1, h2, forall_id_lt_of_map_eq hids h3,
      forall_pid_lt_of_map_eq hpids h4, ?_, ?_, h7⟩
    · rw [hids]; exact h5
    · rw [hkeys]; exact h6
  · rw [h]
    have hfresh := List.find?_eq_none.mp hfl
    refine ⟨h1, h2, ?_, ?_, ?_, ?_, h7⟩
    · intro x hx
      simp only [addListing, List.mem_append, List.mem_singleton] at hx
      rcases hx with hx | hx
      · exact Nat.lt_succ_of_lt (h3 x hx)
      · rw [hx, hid]
        exact Nat.lt_succ_self _
    · intro x hx
      simp only [addListing, List.mem_append, List.mem_singleton] at hx
      rcases hx with hx | hx
      · exact h4 x hx
      · rw [hx, hpid]
        exact h1 product hp
    · simp only [addListing, List.map_append, List.map_cons, List.map_nil]
      rw [List.pairwise_append]
      refine ⟨h5, by simp, ?_⟩
      intro a ha b hb
      rcases List.mem_map.mp ha with ⟨x, hx, hxe⟩
      simp only [List.mem_singleton] at hb
      rw [hb, ← hxe, hid]
      exact Nat.ne_of_lt (h3 x hx)
    · simp only [addListing, List.map_append, List.map_cons, List.map_nil]
      rw [List.pairwise_append]
      refine ⟨h6, by simp, ?_⟩
      intro a ha b hb
      rcases List.mem_map.mp ha with ⟨x, hx, hxe⟩
      simp only [List.mem_singleton] at hb
      rw [hb, ← hxe, hpid, hplat]
      have hfx := hfresh x hx
      intro heq
      apply hfx
      have hp1 : x.product_id = product.id := congrArg Prod.fst heq
      have hp2 : x.platform = platform := congrArg Prod.snd heq
      simp [findListing, hp1, hp2]

/-! ### Lemmas about the bulk loops -/

/-- The cross-post loop never touches products, sales or their counters. -/
theorem crossPostLoop_untouched (A : Adapters) (now : Nat) (product : Product) :
    ∀ (ps : List Platform) (db : DB) (res : List (Platform × Option PlatformListing))
      (tr : List AdapterCall),
      (crossPostLoop A now product ps db res tr).2.1.products = db.products ∧
      (crossPostLoop A now product ps db res tr).2.1.sales = db.sales ∧
      (crossPostLoop A now product ps db res tr).2.1.nextProductId =
        db.nextProductId ∧
      (crossPostLoop A now product ps db res tr).2.1.nextSaleId =
        db.nextSaleId := by
  intro ps
  induction ps with
  | nil => intro db res tr; exact ⟨rfl, rfl, rfl, rfl⟩
  | cons p rest ih =>
    intro db res tr
    have hs := sync_untouched A now db product p
    have hr := ih (sync_product_to_platform A now db product p).2.1
      (dictInsert p (sync_product_to_platform A now db product p).1 res)
      (tr ++ (sync_product_to_platform A now db product p).2.2)
    simp only [crossPostLoop]
    exact ⟨hr.1.trans hs.1, hr.2.1.trans hs.2.1, hr.2.2.1.trans hs.2.2.1,
      hr.2.2.2.trans hs.2.2.2⟩

/-- The cross-post loop preserves well-formedness when the posted product
is a row of the database. -/
theorem crossPostLoop_WF (A : Adapters) (now : Nat) (product : Product) :
    ∀ (ps : List Platform) (db : DB) (res : List (Platform × Option PlatformListing))
      (tr : List AdapterCall), product ∈ db.products → WF db →
      WF (crossPostLoop A now product ps db res tr).2.1 := by
  intro ps
  induction ps with
  | nil => intro db res tr _ hwf; exact hwf
  | cons p rest ih =>
    intro db res tr hp hwf
    simp only [crossPostLoop]
    refine ih _ _ _ ?_ (sync_WF A now db product p hp hwf)
    rw [(sync_untouched A now db product p).1]
    exact hp

/-- The full-sync loop never touches products, sales or their counters. -/
theorem syncAllLoop_untouched (A : Adapters) (now : Nat) :
    ∀ (ls : List PlatformListing) (db : DB) (tr : List AdapterCall),
      (syncAllLoop A now ls db tr).1.products = db.products ∧
      (syncAllLoop A now ls db tr).1.sales = db.sales ∧
      (syncAllLoop A now ls db tr).1.nextProductId = db.nextProductId ∧
      (syncAllLoop A now ls db tr).1.nextSaleId = db.nextSaleId := by
  intro ls
  induction ls with
  | nil => intro db tr; exact ⟨rfl, rfl, rfl, rfl⟩
  | cons l rest ih =>
    intro db tr
    rcases hf : db.products.find? (fun p => p.id == l.product_id) with _ | p
    · simp only [syncAllLoop, hf]
      exact ih db tr
    · simp only [syncAllLoop, hf]
      have hs := sync_untouched A now db p l.platform
      have hr := ih (sync_product_to_platform A now db p l.platform).2.1
        (tr ++ (sync_product_to_platform A now db p l.platform).2.2)
      exact ⟨hr.1.trans hs.1, hr.2.1.trans hs.2.1, hr.2.2.1.trans hs.2.2.1,
        hr.2.2.2.trans hs.2.2.2⟩

/-- The full-sync loop preserves well-formedness. -/
theorem syncAllLoop_WF (A : Adapters) (now : Nat) :
    ∀ (ls : List PlatformListing) (db : DB) (tr : List AdapterCall), WF db →
      WF (syncAllLoop A now ls db tr).1 := by
  intro ls
  induction ls with
  | nil => intro db tr hwf; exact hwf
  | cons l rest ih =>
    intro db tr hwf
    rcases hf : db.products.find? (fun p => p.id == l.product_id) with _ | p
    · simp only [syncAllLoop, hf]
      exact ih db tr hwf
    · simp only [syncAllLoop, hf]
      exact ih _ _ (sync_WF A now db p l.platform (List.mem_of_find?_eq_some hf) hwf)

/-- The mark-as-sold listing loop never touches products, sales or any
counter. -/
theorem markListingsLoop_untouched (A : Adapters) :
    ∀ (ls : List PlatformListing) (db : DB) (tr : List AdapterCall),
      (markListingsLoop A ls db tr).1.products = db.products ∧
      (markListingsLoop A ls db tr).1.sales = db.sales ∧
      (markListingsLoop A ls db tr).1.nextProductId = db.nextProductId ∧
      (markListingsLoop A ls db tr).1.nextListingId = db.nextListingId ∧
      (markListingsLoop A ls db tr).1.nextSaleId = db.nextSaleId := by
  intro ls
  induction ls with
  | nil => intro db tr; exact ⟨rfl, rfl, rfl, rfl, rfl⟩
  | cons l rest ih =>
    intro db tr
    simp only [markListingsLoop, get_platform_integration_eq]
    by_cases ht : truthyStr l.platform_listing_id = true
    · simp only [ht, if_pos]
      rcases hm : (A l.platform).mark_as_sold (l.platform_listing_id.getD "") with e | b
      · exact ih db _
      · exact ih (replaceListing db { l with platform_status := PlatformStatus.sold }) _
    · simp only [ht, if_neg]
      exact ih db tr

/-- The mark-as-sold listing loop preserves the (id, product_id, platform)
triples of the listings table when every processed listing matches a triple
of the table and primary keys are distinct. -/
theorem markListingsLoop_map_lkey (A : Adapters) :
    ∀ (ls : List PlatformListing) (db : DB) (tr : List AdapterCall),
      (∀ l ∈ ls, lkey l ∈ db.listings.map lkey) →
      (db.listings.map PlatformListing.id).Pairwise (fun a b => a ≠ b) →
      (markListingsLoop A ls db tr).1.listings.map lkey =
        db.listings.map lkey := by
  intro ls
  induction ls with
  | nil => intro db tr _ _; rfl
  | cons l rest ih =>
    intro db tr hls hdist
    simp only [markListingsLoop, get_platform_integration_eq]
    by_cases ht : truthyStr l.platform_listing_id = true
    · simp only [ht, if_pos]
      rcases hm : (A l.platform).mark_as_sold (l.platform_listing_id.getD "") with e | b
      · exact ih db _ (fun x hx => hls x (List.mem_cons_of_mem l hx)) hdist
      · have hw : ∃ w ∈ db.listings, w.id = l.id ∧ w.product_id = l.product_id ∧
            w.platform = l.platform := by
          have := hls l (List.mem_cons_self l rest)
          rcases List.mem_map.mp this with ⟨w, hwmem, hwe⟩
          refine ⟨w, hwmem, ?_, ?_, ?_⟩
          · exact congrArg (fun t : Nat × Nat × Platform => t.1) hwe
          · exact congrArg (fun t : Nat × Nat × Platform => t.2.1) hwe
          · exact congrArg (fun t : Nat × Nat × Platform => t.2.2) hwe
        have hrep : (replaceListing db
            { l with platform_status := PlatformStatus.sold }).listings.map lkey =
            db.listings.map lkey :=
          replaceListing_map_lkey db _ hdist hw
        rw [ih (replaceListing db { l with platform_status := PlatformStatus.sold }) _
          ?_ ?_]
        · exact hrep
        · intro x hx
          rw [hrep]
          exact hls x (List.mem_cons_of_mem l hx)
        · rw [map_id_of_map_lkey hrep]
          exact hdist
    · simp only [ht, if_neg]
      exact ih db tr (fun x hx => hls x (List.mem_cons_of_mem l hx)) hdist

/-- The mark-as-sold listing loop only appends markAsSold calls to the
trace it is given. -/
theorem markListingsLoop_trace (A : Adapters) :
    ∀ (ls : List PlatformListing) (db : DB) (tr : List AdapterCall),
      ∃ t, (markListingsLoop A ls db tr).2 = tr ++ t ∧
        ∀ c ∈ t, ∃ p e, c = AdapterCall.markAsSold p e := by
  intro ls
  induction ls with
  | nil => intro db tr; exact ⟨[], by simp [markListingsLoop], by simp⟩
  | cons l rest ih =>
    intro db tr
    simp only [markListingsLoop, get_platform_integration_eq]
    by_cases ht : truthyStr l.platform_listing_id = true
    · simp only [ht, if_pos]
      rcases hm : (A l.platform).mark_as_sold (l.platform_listing_id.getD "") with e | b
      · rcases ih db
          (tr ++ [AdapterCall.markAsSold l.platform (l.platform_listing_id.getD "")])
          with ⟨t, h1, h2⟩
        refine ⟨AdapterCall.markAsSold l.platform (l.platform_listing_id.getD "") :: t,
          ?_, ?_⟩
        · rw [h1, List.append_assoc, List.singleton_append]
        · intro c hc
          rcases List.mem_cons.mp hc with h | h
          · exact ⟨l.platform, l.platform_listing_id.getD "", h⟩
          · exact h2 c h
      · rcases ih (replaceListing db { l with platform_status := PlatformStatus.sold })
          (tr ++ [AdapterCall.markAsSold l.platform (l.platform_listing_id.getD "")])
          with ⟨t, h1, h2⟩
        refine ⟨AdapterCall.markAsSold l.platform (l.platform_listing_id.getD "") :: t,
          ?_, ?_⟩
        · rw [h1, List.append_assoc, List.singleton_append]
        · intro c hc
          rcases List.mem_cons.mp hc with h | h
          · exact ⟨l.platform, l.platform_listing_id.getD "", h⟩
          · exact h2 c h
    · simp only [ht, if_neg]
      exact ih db tr

/-- The replacing row itself is a row of the table after a replacement that
hits at least the row l. -/
theorem mem_replaceListing_self {db : DB} {l : PlatformListing}
    (l2 : PlatformListing) (hx : l ∈ db.listings) (hid : l2.id = l.id) :
    l2 ∈ (replaceListing db l2).listings := by
  have hfl : (if l.id == l2.id then l2 else l) = l2 := by simp [hid]
  have h := List.mem_map_of_mem (fun y => if y.id == l2.id then l2 else y) hx
  simp only [hfl] at h
  exact h

/-- A row whose primary key differs from the replaced key is untouched by a
replacement. -/
theorem mem_replaceListing_other {db : DB} {x : PlatformListing}
    (l2 : PlatformListing) (hx : x ∈ db.listings) (hne : x.id ≠ l2.id) :
    x ∈ (replaceListing db l2).listings := by
  have hfx : (if x.id == l2.id then l2 else x) = x := by simp [hne]
  have h := List.mem_map_of_mem (fun y => if y.id == l2.id then l2 else y) hx
  simp only [hfx] at h
  exact h

/-- A row whose primary key none of the processed listings carries survives
the mark-as-sold listing loop untouched. -/
theorem markListingsLoop_mem_preserved (A : Adapters) :
    ∀ (ls : List PlatformListing) (db : DB) (tr : List AdapterCall)
      (x : PlatformListing), x ∈ db.listings → (∀ l ∈ ls, l.id ≠ x.id) →
      x ∈ (markListingsLoop A ls db tr).1.listings := by
  intro ls
  induction ls with
  | nil => intro db tr x hx _; exact hx
  | cons l rest ih =>
    intro db tr x hx hne
    simp only [markListingsLoop, get_platform_integration_eq]
    by_cases ht : truthyStr l.platform_listing_id = true
    · simp only [ht, if_pos]
      rcases hm : (A l.platform).mark_as_sold (l.platform_listing_id.getD "") with e | b
      · exact ih db _ x hx (fun y hy => hne y (List.mem_cons_of_mem l hy))
      · refine ih _ _ x ?_ (fun y hy => hne y (List.mem_cons_of_mem l hy))
        exact mem_replaceListing_other _ hx
          (fun h => hne l (List.mem_cons_self l rest) h.symm)
    · simp only [ht, if_neg]
      exact ih db tr x hx (fun y hy => hne y (List.mem_cons_of_mem l hy))

/-- Per-listing postcondition of the mark-as-sold loop: a processed listing
with a truthy external id has markAsSold invoked, and its row is set to
SOLD when the call returns but left untouched when the call raises; a
listing with a falsy external id keeps its row untouched. -/
theorem markListingsLoop_spec (A : Adapters) :
    ∀ (ls : List PlatformListing) (db : DB) (tr : List AdapterCall)
      (l : PlatformListing), l ∈ ls →
      (ls.map PlatformListing.id).Pairwise (fun a b => a ≠ b) →
      (∀ x ∈ ls, x ∈ db.listings) →
      ((truthyStr l.platform_listing_id = true →
        (AdapterCall.markAsSold l.platform (l.platform_listing_id.getD "") ∈
          (markListingsLoop A ls db tr).2) ∧
        (∀ b, (A l.platform).mark_as_sold (l.platform_listing_id.getD "") =
            Except.ok b →
          { l with platform_status := PlatformStatus.sold } ∈
            (markListingsLoop A ls db tr).1.listings) ∧
        (∀ e, (A l.platform).mark_as_sold (l.platform_listing_id.getD "") =
            Except.error e →
          l ∈ (markListingsLoop A ls db tr).1.listings)) ∧
       (truthyStr l.platform_listing_id = false →
        l ∈ (markListingsLoop A ls db tr).1.listings)) := by
  intro ls
  induction ls with
  | nil => intro db tr l hl; cases hl
  | cons a rest ih =>
    intro db tr l hl hdist hsub
    rw [List.map_cons] at hdist
    have hpair := List.pairwise_cons.mp hdist
    have hdrest : (rest.map PlatformListing.id).Pairwise (fun a b => a ≠ b) :=
      hpair.2
    have hhead : ∀ y ∈ rest, a.id ≠ y.id := by
      intro y hy
      exact hpair.1 y.id (List.mem_map_of_mem PlatformListing.id hy)
    rcases List.mem_cons.mp hl with hla | hlr
    · subst hla
      constructor
      · intro ht
        rcases hm : (A l.platform).mark_as_sold (l.platform_listing_id.getD "")
          with e | b
        · simp only [markListingsLoop, get_platform_integration_eq, ht, if_pos, hm]
          refine ⟨?_, ?_, ?_⟩
          · rcases markListingsLoop_trace A rest db
              (tr ++ [AdapterCall.markAsSold l.platform (l.platform_listing_id.getD "")])
              with ⟨t, h1, _⟩
            rw [h1]
            simp
          · intro b hb
            cases hb
          · intro e2 _
            exact markListingsLoop_mem_preserved A rest db _ l
              (hsub l (List.mem_cons_self l rest))
              (fun y hy => Ne.symm (hhead y hy))
        · simp only [markListingsLoop, get_platform_integration_eq, ht, if_pos, hm]
          refine ⟨?_, ?_, ?_⟩
          · rcases markListingsLoop_trace A rest
              (replaceListing db { l with platform_status := PlatformStatus.sold })
              (tr ++ [AdapterCall.markAsSold l.platform (l.platform_listing_id.getD "")])
              with ⟨t, h1, _⟩
            rw [h1]
            simp
          · intro b2 _
            refine markListingsLoop_mem_preserved A rest _ _ _ ?_
              (fun y hy => Ne.symm (hhead y hy))
            exact mem_replaceListing_self _ (hsub l (List.mem_cons_self l rest)) rfl
          · intro e hb
            cases hb
      · intro ht
        simp only [markListingsLoop, get_platform_integration_eq]
        rw [if_neg (by simp [ht])]
        exact markListingsLoop_mem_preserved A rest db tr l
          (hsub l (List.mem_cons_self l rest))
          (fun y hy => Ne.symm (hhead y hy))
    · simp only [markListingsLoop, get_platform_integration_eq]
      by_cases ht : truthyStr a.platform_listing_id = true
      · simp only [ht, if_pos]
        rcases hm : (A a.platform).mark_as_sold (a.platform_listing_id.getD "") with e | b
        · exact ih db _ l hlr hdrest (fun x hx => hsub x (List.mem_cons_of_mem a hx))
        · refine ih _ _ l hlr hdrest ?_
          intro x hx
          by_cases hxid : x.id = a.id
          · exact absurd hxid.symm (hhead x hx)
          · exact mem_replaceListing_other _
              (hsub x (List.mem_cons_of_mem a hx)) hxid
      · simp only [ht, if_neg]
        exact ih db tr l hlr hdrest (fun x hx => hsub x (List.mem_cons_of_mem a hx))

/-! ### Lemmas about mark_product_as_sold -/

/-- The sheets sync only ever touches the two sheets bookkeeping columns of
the sale row. -/
theorem sync_sale_to_sheets_core (sheets : SheetsBehavior) (s : Sale)
    (p : Product) :
    (sync_sale_to_sheets sheets s p).id = s.id ∧
    (sync_sale_to_sheets sheets s p).product_id = s.product_id ∧
    (sync_sale_to_sheets sheets s p).platform = s.platform ∧
    (sync_sale_to_sheets sheets s p).sale_price = s.sale_price ∧
    (sync_sale_to_sheets sheets s p).sale_date = s.sale_date := by
  rcases hs : sheets s p with e | r
  · simp [sync_sale_to_sheets, hs]
  · by_cases h : truthyRow r = true
    · simp [sync_sale_to_sheets, hs, h]
    · simp [sync_sale_to_sheets, hs, h]

/-- The identifying columns of the sale row built by mark_product_as_sold:
the .get defaults of the source. -/
theorem saleRow_fields (sheets : SheetsBehavior) (now : Nat) (nextId : Nat)
    (product : Product) (product_id : Nat) (sold_on_platform : Platform)
    (sd : SaleData) :
    (saleRow sheets now nextId product product_id sold_on_platform sd).product_id =
      product_id ∧
    (saleRow sheets now nextId product product_id sold_on_platform sd).platform =
      sold_on_platform ∧
    (saleRow sheets now nextId product product_id sold_on_platform sd).sale_date =
      sd.sale_date.getD now ∧
    (saleRow sheets now nextId product product_id sold_on_platform sd).sale_price =
      sd.sale_price.getD product.price := by
  simp only [saleRow]
  refine ⟨?_, ?_, ?_, ?_⟩
  · exact (sync_sale_to_sheets_core sheets _ product).2.1
  · exact (sync_sale_to_sheets_core sheets _ product).2.2.1
  · exact (sync_sale_to_sheets_core sheets _ product).2.2.2.2
  · exact (sync_sale_to_sheets_core sheets _ product).2.2.2.1

/-- mark_product_as_sold on a missing product is a no-op returning
False. -/
theorem mark_eval_missing (A : Adapters) (sheets : SheetsBehavior) (now : Nat)
    (db : DB) (pid : Nat) (platform : Platform) (sd : Option SaleData)
    (hfind : db.products.find? (fun p => p.id == pid) = none) :
    mark_product_as_sold A sheets now db pid platform sd = (false, db, []) := by
  simp [mark_product_as_sold, hfind]

/-- The products table after mark_product_as_sold: the found row set to
SOLD, everything else untouched. -/
theorem mark_products (A : Adapters) (sheets : SheetsBehavior) (now : Nat)
    (db : DB) (pid : Nat) (platform : Platform) (sd : Option SaleData)
    (product : Product)
    (hfind : db.products.find? (fun p => p.id == pid) = some product) :
    (mark_product_as_sold A sheets now db pid platform sd).2.1.products =
      (replaceProduct db { product with status := ProductStatus.sold }).products := by
  rcases sd with _ | sdv <;> simp only [mark_product_as_sold, hfind] <;>
    exact (markListingsLoop_untouched A _ _ _).1

/-- The listings table after mark_product_as_sold is the listings table
left by the mark loop over the listings of the product. -/
theorem mark_listings (A : Adapters) (sheets : SheetsBehavior) (now : Nat)
    (db : DB) (pid : Nat) (platform : Platform) (sd : Option SaleData)
    (product : Product)
    (hfind : db.products.find? (fun p => p.id == pid) = some product) :
    (mark_product_as_sold A sheets now db pid platform sd).2.1.listings =
      (markListingsLoop A (db.listings.filter (fun l => l.product_id == pid))
        (replaceProduct db { product with status := ProductStatus.sold })
        []).1.listings := by
  rcases sd with _ | sdv <;> simp only [mark_product_as_sold, hfind] <;> rfl

/-- The trace of mark_product_as_sold is the trace of its mark loop. -/
theorem mark_trace (A : Adapters) (sheets : SheetsBehavior) (now : Nat)
    (db : DB) (pid : Nat) (platform : Platform) (sd : Option SaleData)
    (product : Product)
    (hfind : db.products.find? (fun p => p.id == pid) = some product) :
    (mark_product_as_sold A sheets now db pid platform sd).2.2 =
      (markListingsLoop A (db.listings.filter (fun l => l.product_id == pid))
        (replaceProduct db { product with status := ProductStatus.sold })
        []).2 := by
  rcases sd with _ | sdv <;> simp only [mark_product_as_sold, hfind] <;> rfl

/-- Without sale_data no sale row is created. -/
theorem mark_sales_none (A : Adapters) (sheets : SheetsBehavior) (now : Nat)
    (db : DB) (pid : Nat) (platform : Platform) (product : Product)
    (hfind : db.products.find? (fun p => p.id == pid) = some product) :
    (mark_product_as_sold A sheets now db pid platform none).2.1.sales =
      db.sales := by
  simp only [mark_product_as_sold, hfind]
  exact (markListingsLoop_untouched A _ _ _).2.1

/-- With sale_data exactly one sale row is appended. -/
theorem mark_sales_some (A : Adapters) (sheets : SheetsBehavior) (now : Nat)
    (db : DB) (pid : Nat) (platform : Platform) (sdv : SaleData)
    (product : Product)
    (hfind : db.products.find? (fun p => p.id == pid) = some product) :
    ∃ s, (mark_product_as_sold A sheets now db pid platform (some sdv)).2.1.sales =
        db.sales ++ [s] ∧
      s.product_id = pid ∧ s.platform = platform ∧
      s.sale_date = sdv.sale_date.getD now ∧
      s.sale_price = sdv.sale_price.getD product.price := by
  refine ⟨saleRow sheets now
      (markListingsLoop A (db.listings.filter (fun l => l.product_id == pid))
        (replaceProduct db { product with status := ProductStatus.sold })
        []).1.nextSaleId product pid platform sdv, ?_,
    (saleRow_fields sheets now _ product pid platform sdv).1,
    (saleRow_fields sheets now _ product pid platform sdv).2.1,
    (saleRow_fields sheets now _ product pid platform sdv).2.2.1,
    (saleRow_fields sheets now _ product pid platform sdv).2.2.2⟩
  simp only [mark_product_as_sold, hfind, addSale]
  rw [(markListingsLoop_untouched A _ _ _).2.1]
  rfl

/-- mark_product_as_sold does not change the product and listing
counters. -/
theorem mark_nextIds (A : Adapters) (sheets : SheetsBehavior) (now : Nat)
    (db : DB) (pid : Nat) (platform : Platform) (sd : Option SaleData)
    (product : Product)
    (hfind : db.products.find? (fun p => p.id == pid) = some product) :
    (mark_product_as_sold A sheets now db pid platform sd).2.1.nextProductId =
      db.nextProductId ∧
    (mark_product_as_sold A sheets now db pid platform sd).2.1.nextListingId =
      db.nextListingId := by
  rcases sd with _ | sdv <;> simp only [mark_product_as_sold, hfind] <;>
    exact ⟨(markListingsLoop_untouched A _ _ _).2.2.1,
      (markListingsLoop_untouched A _ _ _).2.2.2.1⟩

/-- Replacing the found row by primary key makes find? return the
replacement. -/
theorem find?_map_replace (xs : List Product) (pid : Nat) (product v : Product)
    (hfind : xs.find? (fun p => p.id == pid) = some product)
    (hv : v.id = product.id) :
    (xs.map (fun x => if x.id == v.id then v else x)).find?
      (fun p => p.id == pid) = some v := by
  induction xs with
  | nil => simp at hfind
  | cons a t ih =>
    cases ha : (a.id == pid) with
    | true =>
      have hap : a = product := by
        have h0 := hfind
        simp only [List.find?_cons, ha] at h0
        exact Option.some.inj h0
      have hcond : (a.id == v.id) = true := by
        rw [hv, ← hap]
        exact beq_self_eq_true a.id
      have hvpred : (v.id == pid) = true := by
        rw [hv, ← hap]
        exact ha
      rw [List.map_cons, if_pos hcond]
      simp only [List.find?_cons, hvpred]
    | false =>
      have ht : t.find? (fun p => p.id == pid) = some product := by
        have h0 := hfind
        simp only [List.find?_cons, ha] at h0
        exact h0
      have hpid2 : product.id = pid := by
        simpa using List.find?_some ht
      have hcond : (a.id == v.id) = false := by
        rw [hv, hpid2]
        exact ha
      rw [List.map_cons, if_neg (by simp [hcond])]
      simp only [List.find?_cons, ha]
      exact ih ht

/-- After mark_product_as_sold the found product reads back as the same row
with status SOLD. -/
theorem mark_find (A : Adapters) (sheets : SheetsBehavior) (now : Nat)
    (db : DB) (pid : Nat) (platform : Platform) (sd : Option SaleData)
    (product : Product)
    (hfind : db.products.find? (fun p => p.id == pid) = some product) :
    (mark_product_as_sold A sheets now db pid platform sd).2.1.products.find?
      (fun p => p.id == pid) = some { product with status := ProductStatus.sold } := by
  rw [mark_products A sheets now db pid platform sd product hfind]
  exact find?_map_replace db.products pid product _ hfind rfl

theorem soldPersists_refl (db : DB) : SoldPersists db db := by
  intro p hp hs
  exact ⟨p, hp, rfl, hs⟩

theorem soldPersists_trans {db1 db2 db3 : DB} (h1 : SoldPersists db1 db2)
    (h2 : SoldPersists db2 db3) : SoldPersists db1 db3 := by
  intro p hp hs
  rcases h1 p hp hs with ⟨q, hq, hqid, hqs⟩
  rcases h2 q hq hqs with ⟨r, hr, hrid, hrs⟩
  exact ⟨r, hr, hrid.trans hqid, hrs⟩

/-- mark_product_as_sold preserves well-formedness. -/
theorem mark_WF (A : Adapters) (sheets : SheetsBehavior) (now : Nat)
    (db : DB) (pid : Nat) (platform : Platform) (sd : Option SaleData)
    (hwf : WF db) :
    WF (mark_product_as_sold A sheets now db pid platform sd).2.1 := by
  rcases hfind : db.products.find? (fun p => p.id == pid) with _ | product
  · rw [mark_eval_missing A sheets now db pid platform sd hfind]
    exact hwf
  · obtain ⟨h1, h2, h3, h4, h5, h6, h7⟩ := hwf
    have hpmem : product ∈ db.products := List.mem_of_find?_eq_some hfind
    have hpid : product.id = pid := by simpa using List.find?_some hfind
    have hprod := mark_products A sheets now db pid platform sd product hfind
    have hlist := mark_listings A sheets now db pid platform sd product hfind
    have hnext := mark_nextIds A sheets now db pid platform sd product hfind
    have hpmap : (mark_product_as_sold A sheets now db pid platform sd).2.1.products.map
        Product.id = db.products.map Product.id := by
      rw [hprod]
      exact replaceProduct_map_id db _
    have hlmap : (mark_product_as_sold A sheets now db pid platform sd).2.1.listings.map
        lkey = db.listings.map lkey := by
      rw [hlist]
      refine markListingsLoop_map_lkey A _ _ _ ?_ ?_
      · intro l hl
        exact List.mem_map_of_mem lkey (List.mem_of_mem_filter hl)
      · exact h5
    refine ⟨?_, ?_, ?_, ?_, ?_, ?_, ?_⟩
    · rw [hnext.1]
      exact forall_product_id_lt_of_map_eq hpmap h1
    · rw [hpmap]
      exact h2
    · rw [hnext.2]
      exact forall_id_lt_of_map_eq (map_id_of_map_lkey hlmap) h3
    · rw [hnext.1]
      exact forall_pid_lt_of_map_eq (map_pid_of_map_lkey hlmap) h4
    · rw [map_id_of_map_lkey hlmap]
      exact h5
    · rw [map_key_of_map_lkey hlmap]
      exact h6
    · rw [hnext.1]
      rcases sd with _ | sdv
      · rw [mark_sales_none A sheets now db pid platform product hfind]
        exact h7
      · rcases mark_sales_some A sheets now db pid platform sdv product hfind with
          ⟨s, hseq, hspid, _, _, _⟩
        rw [hseq]
        intro x hx
        rcases List.mem_append.mp hx with hx | hx
        · exact h7 x hx
        · rw [List.mem_singleton] at hx
          rw [hx, hspid, ← hpid]
          exact h1 product hpmem

/-- mark_product_as_sold preserves the sale-implies-SOLD invariant. -/
theorem mark_SalesSold (A : Adapters) (sheets : SheetsBehavior) (now : Nat)
    (db : DB) (pid : Nat) (platform : Platform) (sd : Option SaleData)
    (hss : SalesSold db) :
    SalesSold (mark_product_as_sold A sheets now db pid platform sd).2.1 := by
  rcases hfind : db.products.find? (fun p => p.id == pid) with _ | product
  · rw [mark_eval_missing A sheets now db pid platform sd hfind]
    exact hss
  · have hpid : product.id = pid := by simpa using List.find?_some hfind
    have hprod := mark_products A sheets now db pid platform sd product hfind
    intro s hs p2 hp2 hp2id
    rw [hprod] at hp2
    simp only [replaceProduct, List.mem_map] at hp2
    rcases hp2 with ⟨x, hx, hxe⟩
    by_cases hc : x.id = product.id
    · have hxv : ({ product with status := ProductStatus.sold } : Product) = p2 := by
        rw [← hxe]
        simp [hc]
      rw [← hxv]
    · have hxv : x = p2 := by
        rw [← hxe]
        simp [hc]
      subst hxv
      rcases sd with _ | sdv
      · rw [mark_sales_none A sheets now db pid platform product hfind] at hs
        exact hss s hs x hx hp2id
      · rcases mark_sales_some A sheets now db pid platform sdv product hfind with
          ⟨snew, hseq, hspid, _, _, _⟩
        rw [hseq] at hs
        rcases List.mem_append.mp hs with hs | hs
        · exact hss s hs x hx hp2id
        · rw [List.mem_singleton] at hs
          subst hs
          exfalso
          apply hc
          rw [hp2id, hspid, ← hpid]

/-- mark_product_as_sold never reverts a SOLD product. -/
theorem mark_SoldPersists (A : Adapters) (sheets : SheetsBehavior) (now : Nat)
    (db : DB) (pid : Nat) (platform : Platform) (sd : Option SaleData) :
    SoldPersists db (mark_product_as_sold A sheets now db pid platform sd).2.1 := by
  rcases hfind : db.products.find? (fun p => p.id == pid) with _ | product
  · rw [mark_eval_missing A sheets now db pid platform sd hfind]
    exact soldPersists_refl db
  · have hprod := mark_products A sheets now db pid platform sd product hfind
    intro p hp hsold
    by_cases hc : p.id = product.id
    · refine ⟨{ product with status := ProductStatus.sold }, ?_, hc.symm, rfl⟩
      rw [hprod]
      simp only [replaceProduct, List.mem_map]
      exact ⟨p, hp, by simp [hc]⟩
    · refine ⟨p, ?_, rfl, hsold⟩
      rw [hprod]
      simp only [replaceProduct, List.mem_map]
      exact ⟨p, hp, by simp [hc]⟩

/-! ### Lemmas about the sold-item sweep -/

/-- The sold-check inner loop preserves well-formedness. -/
theorem checkListingsLoop_WF (A : Adapters) (sheets : SheetsBehavior)
    (now : Nat) (product : Product) :
    ∀ (ls : List PlatformListing) (db : DB) (tr : List AdapterCall), WF db →
      WF (checkListingsLoop A sheets now product ls db tr).1 := by
  intro ls
  induction ls with
  | nil => intro db tr hwf; exact hwf
  | cons l rest ih =>
    intro db tr hwf
    simp only [checkListingsLoop, get_platform_integration_eq]
    by_cases ht : truthyStr l.platform_listing_id = true
    · simp only [ht, if_pos]
      rcases hc : (A l.platform).check_listing_status (l.platform_listing_id.getD "")
        with e | st
      · exact ih db _ hwf
      · by_cases hs : (st == some "sold") = true
        · simp only [hs, if_pos]
          exact mark_WF A sheets now db product.id l.platform _ hwf
        · simp only [hs, if_neg]
          exact ih db _ hwf
    · simp only [ht, if_neg]
      exact ih db tr hwf

/-- The sold-check inner loop preserves the sale-implies-SOLD invariant and
never reverts a SOLD product. -/
theorem checkListingsLoop_sold (A : Adapters) (sheets : SheetsBehavior)
    (now : Nat) (product : Product) :
    ∀ (ls : List PlatformListing) (db : DB) (tr : List AdapterCall),
      SalesSold db →
      SalesSold (checkListingsLoop A sheets now product ls db tr).1 ∧
      SoldPersists db (checkListingsLoop A sheets now product ls db tr).1 := by
  intro ls
  induction ls with
  | nil => intro db tr hss; exact ⟨hss, soldPersists_refl db⟩
  | cons l rest ih =>
    intro db tr hss
    simp only [checkListingsLoop, get_platform_integration_eq]
    by_cases ht : truthyStr l.platform_listing_id = true
    · simp only [ht, if_pos]
      rcases hc : (A l.platform).check_listing_status (l.platform_listing_id.getD "")
        with e | st
      · exact ih db _ hss
      · by_cases hs : (st == some "sold") = true
        · simp only [hs, if_pos]
          exact ⟨mark_SalesSold A sheets now db product.id l.platform _ hss,
            mark_SoldPersists A sheets now db product.id l.platform _⟩
        · simp only [hs, if_neg]
          exact ih db _ hss
    · simp only [ht, if_neg]
      exact ih db tr hss

/-- The sold-check outer loop preserves well-formedness. -/
theorem checkProductsLoop_WF (A : Adapters) (sheets : SheetsBehavior)
    (now : Nat) :
    ∀ (ps : List Product) (db : DB) (acc : List SoldItem)
      (tr : List AdapterCall), WF db →
      WF (checkProductsLoop A sheets now ps db acc tr).2.1 := by
  intro ps
  induction ps with
  | nil => intro db acc tr hwf; exact hwf
  | cons p rest ih =>
    intro db acc tr hwf
    simp only [checkProductsLoop]
    exact ih _ _ _ (checkListingsLoop_WF A sheets now p _ db _ hwf)

/-- The sold-check outer loop preserves the sale-implies-SOLD invariant and
never reverts a SOLD product. -/
theorem checkProductsLoop_sold (A : Adapters) (sheets : SheetsBehavior)
    (now : Nat) :
    ∀ (ps : List Product) (db : DB) (acc : List SoldItem)
      (tr : List AdapterCall), SalesSold db →
      SalesSold (checkProductsLoop A sheets now ps db acc tr).2.1 ∧
      SoldPersists db (checkProductsLoop A sheets now ps db acc tr).2.1 := by
  intro ps
  induction ps with
  | nil => intro db acc tr hss; exact ⟨hss, soldPersists_refl db⟩
  | cons p rest ih =>
    intro db acc tr hss
    simp only [checkProductsLoop]
    have hstep := checkListingsLoop_sold A sheets now p
      (db.listings.filter
        (fun l => l.product_id == p.id && l.platform_status == PlatformStatus.active))
      db [] hss
    have hrest := ih (checkListingsLoop A sheets now p
        (db.listings.filter
          (fun l => l.product_id == p.id && l.platform_status == PlatformStatus.active))
        db []).1
      (acc ++ (checkListingsLoop A sheets now p
        (db.listings.filter
          (fun l => l.product_id == p.id && l.platform_status == PlatformStatus.active))
        db []).2.1.toList)
      (tr ++ (checkListingsLoop A sheets now p
        (db.listings.filter
          (fun l => l.product_id == p.id && l.platform_status == PlatformStatus.active))
        db []).2.2)
      hstep.1
    exact ⟨hrest.1, soldPersists_trans hstep.2 hrest.2⟩

/-! ### Lemmas about importing -/

/-- Inserting a fresh product with one listing for it keeps the database
well-formed when their primary keys are the current counters. -/
theorem addProductListing_WF (db : DB) (p : Product) (l : PlatformListing)
    (hpid : p.id = db.nextProductId) (hlid : l.id = db.nextListingId)
    (hlpid : l.product_id = p.id) (hwf : WF db) :
    WF (addListing (addProduct db p) l) := by
  obtain ⟨h1, h2, h3, h4, h5, h6, h7⟩ := hwf
  refine ⟨?_, ?_, ?_, ?_, ?_, ?_, ?_⟩
  · intro x hx
    rcases List.mem_append.mp hx with hx | hx
    · exact Nat.lt_succ_of_lt (h1 x hx)
    · rw [List.mem_singleton] at hx
      rw [hx, hpid]
      exact Nat.lt_succ_self _
  · simp only [addListing, addProduct, List.map_append, List.map_cons, List.map_nil]
    rw [List.pairwise_append]
    refine ⟨h2, by simp, ?_⟩
    intro a ha b hb
    rcases List.mem_map.mp ha with ⟨x, hx, hxe⟩
    simp only [List.mem_singleton] at hb
    rw [hb, ← hxe, hpid]
    exact Nat.ne_of_lt (h1 x hx)
  · intro x hx
    rcases List.mem_append.mp hx with hx | hx
    · exact Nat.lt_succ_of_lt (h3 x hx)
    · rw [List.mem_singleton] at hx
      rw [hx, hlid]
      exact Nat.lt_succ_self _
  · intro x hx
    rcases List.mem_append.mp hx with hx | hx
    · exact Nat.lt_succ_of_lt (h4 x hx)
    · rw [List.mem_singleton] at hx
      rw [hx, hlpid, hpid]
      exact Nat.lt_succ_self _
  · simp only [addListing, addProduct, List.map_append, List.map_cons, List.map_nil]
    rw [List.pairwise_append]
    refine ⟨h5, by simp, ?_⟩
    intro a ha b hb
    rcases List.mem_map.mp ha with ⟨x, hx, hxe⟩
    simp only [List.mem_singleton] at hb
    rw [hb, ← hxe, hlid]
    exact Nat.ne_of_lt (h3 x hx)
  · simp only [addListing, addProduct, List.map_append, List.map_cons, List.map_nil]
    rw [List.pairwise_append]
    refine ⟨h6, by simp, ?_⟩
    intro a ha b hb
    rcases List.mem_map.mp ha with ⟨x, hx, hxe⟩
    simp only [List.mem_singleton] at hb
    rw [hb, ← hxe]
    intro heq
    have : x.product_id = l.product_id := congrArg Prod.fst heq
    rw [hlpid, hpid] at this
    exact Nat.ne_of_lt (h4 x hx) this
  · intro s hs
    exact Nat.lt_succ_of_lt (h7 s hs)

/-- Inserting a fresh product preserves the sale-implies-SOLD invariant:
no sale row can reference the fresh primary key. -/
theorem addProductListing_SalesSold (db : DB) (p : Product)
    (l : PlatformListing) (hpid : p.id = db.nextProductId) (hwf : WF db)
    (hss : SalesSold db) : SalesSold (addListing (addProduct db p) l) := by
  intro s hs p2 hp2 hp2id
  rcases List.mem_append.mp hp2 with hp2 | hp2
  · exact hss s hs p2 hp2 hp2id
  · rw [List.mem_singleton] at hp2
    exfalso
    have hb := hwf.2.2.2.2.2.2 s hs
    rw [← hp2id, hp2, hpid] at hb
    exact Nat.lt_irrefl _ hb

/-- The import loop, when it commits, preserves well-formedness and the
sale-implies-SOLD invariant, and keeps every pre-existing product row. -/
theorem importLoop_inv (platform : Platform) (now : Nat) :
    ∀ (items : List ImportItem) (db : DB) (acc : List Product) (db2 : DB)
      (acc2 : List Product),
      importLoop platform now items db acc = (some db2, acc2) → WF db →
      SalesSold db →
      WF db2 ∧ SalesSold db2 ∧ (∀ p ∈ db.products, p ∈ db2.products) := by
  intro items
  induction items with
  | nil =>
    intro db acc db2 acc2 heq hwf hss
    simp only [importLoop, Prod.mk.injEq] at heq
    obtain ⟨h1, _⟩ := heq
    obtain h1 := Option.some.inj h1
    subst h1
    exact ⟨hwf, hss, fun p hp => hp⟩
  | cons item rest ih =>
    rcases item with d | msg
    · intro db acc db2 acc2 heq hwf hss
      rcases hid : d.id with _ | s
      · simp only [importLoop, hid] at heq
        rcases ih _ _ _ _ heq (addProductListing_WF db _ _ rfl rfl rfl hwf)
          (addProductListing_SalesSold db _ _ rfl hwf hss) with ⟨hw2, hs2, hsup⟩
        refine ⟨hw2, hs2, ?_⟩
        intro x hx
        exact hsup x (List.mem_append_left _ hx)
      · rcases hfind : db.listings.find?
            (fun l => l.platform == platform && l.platform_listing_id == some s)
            with _ | w
        · simp only [importLoop, hid, hfind] at heq
          rcases ih _ _ _ _ heq (addProductListing_WF db _ _ rfl rfl rfl hwf)
            (addProductListing_SalesSold db _ _ rfl hwf hss) with ⟨hw2, hs2, hsup⟩
          refine ⟨hw2, hs2, ?_⟩
          intro x hx
          exact hsup x (List.mem_append_left _ hx)
        · simp only [importLoop, hid, hfind] at heq
          exact ih _ _ _ _ heq hwf hss
    · intro db acc db2 acc2 heq hwf hss
      simp only [importLoop, Prod.mk.injEq] at heq
      exact absurd heq.1 (by simp)

/-- The import loop, when it commits, preserves well-formedness. -/
theorem importLoop_WF (platform : Platform) (now : Nat) :
    ∀ (items : List ImportItem) (db : DB) (acc : List Product) (db2 : DB)
      (acc2 : List Product),
      importLoop platform now items db acc = (some db2, acc2) → WF db →
      WF db2 := by
  intro items
  induction items with
  | nil =>
    intro db acc db2 acc2 heq hwf
    simp only [importLoop, Prod.mk.injEq] at heq
    obtain h1 := Option.some.inj heq.1
    subst h1
    exact hwf
  | cons item rest ih =>
    rcases item with d | msg
    · intro db acc db2 acc2 heq hwf
      rcases hid : d.id with _ | s
      · simp only [importLoop, hid] at heq
        exact ih _ _ _ _ heq (addProductListing_WF db _ _ rfl rfl rfl hwf)
      · rcases hfind : db.listings.find?
            (fun l => l.platform == platform && l.platform_listing_id == some s)
            with _ | w
        · simp only [importLoop, hid, hfind] at heq
          exact ih _ _ _ _ heq (addProductListing_WF db _ _ rfl rfl rfl hwf)
        · simp only [importLoop, hid, hfind] at heq
          exact ih _ _ _ _ heq hwf
    · intro db acc db2 acc2 heq hwf
      simp only [importLoop, Prod.mk.injEq] at heq
      exact absurd heq.1 (by simp)

/-- import_from_platform preserves well-formedness: the committed state is
well-formed and a rolled-back call leaves the database untouched. -/
theorem import_WF (A : Adapters) (now : Nat) (db : DB) (platform : Platform)
    (hwf : WF db) : WF (import_from_platform A now db platform).2.1 := by
  rcases hg : (A platform).get_listings with e | items
  · simp only [import_from_platform, get_platform_integration_eq, hg]
    exact hwf
  · rcases hloop : importLoop platform now items db [] with ⟨odb, acc⟩
    rcases odb with _ | dbx
    · simp only [import_from_platform, get_platform_integration_eq, hg, hloop]
      exact hwf
    · simp only [import_from_platform, get_platform_integration_eq, hg, hloop]
      exact importLoop_WF platform now items db [] dbx acc hloop hwf

/-- Unchanged products and sales tables carry the sold invariants over. -/
theorem sold_of_untouched {db db2 : DB} (hp : db2.products = db.products)
    (hs : db2.sales = db.sales) (hss : SalesSold db) :
    SalesSold db2 ∧ SoldPersists db db2 := by
  constructor
  · intro s hs2 p hp2 hid
    rw [hs] at hs2
    rw [hp] at hp2
    exact hss s hs2 p hp2 hid
  · intro p hpm hsold
    refine ⟨p, ?_, rfl, hsold⟩
    rw [hp]
    exact hpm

/-- import_from_platform preserves the sale-implies-SOLD invariant and
never reverts a SOLD product. -/
theorem import_sold (A : Adapters) (now : Nat) (db : DB) (platform : Platform)
    (hwf : WF db) (hss : SalesSold db) :
    SalesSold (import_from_platform A now db platform).2.1 ∧
    SoldPersists db (import_from_platform A now db platform).2.1 := by
  rcases hg : (A platform).get_listings with e | items
  · simp only [import_from_platform, get_platform_integration_eq, hg]
    exact ⟨hss, soldPersists_refl db⟩
  · rcases hloop : importLoop platform now items db [] with ⟨odb, acc⟩
    rcases odb with _ | dbx
    · simp only [import_from_platform, get_platform_integration_eq, hg, hloop]
      exact ⟨hss, soldPersists_refl db⟩
    · simp only [import_from_platform, get_platform_integration_eq, hg, hloop]
      rcases importLoop_inv platform now items db [] dbx acc hloop hwf hss with
        ⟨_, hs2, hsup⟩
      refine ⟨hs2, ?_⟩
      intro p hp hsold
      exact ⟨p, hsup p hp, rfl, hsold⟩

/-! ### Engine-level preservation -/

/-- Every engine operation preserves well-formedness of the database. -/
theorem engineStep_WF (A : Adapters) (sheets : SheetsBehavior) (now : Nat)
    {db db2 : DB} (hwf : WF db) (hstep : EngineStep A sheets now db db2) :
    WF db2 := by
  cases hstep with
  | syncOne product platform hp =>
    exact sync_WF A now db product platform hp hwf
  | crossPost product platforms hp =>
    exact crossPostLoop_WF A now product platforms db [] [] hp hwf
  | markSold pid platform sd =>
    exact mark_WF A sheets now db pid platform sd hwf
  | checkSold =>
    exact checkProductsLoop_WF A sheets now _ db [] [] hwf
  | syncAll =>
    exact syncAllLoop_WF A now _ db [] hwf
  | importFrom platform =>
    exact import_WF A now db platform hwf

/-- Every engine operation preserves the sale-implies-SOLD invariant and
never reverts a SOLD product. -/
theorem engineStep_sold (A : Adapters) (sheets : SheetsBehavior) (now : Nat)
    {db db2 : DB} (hwf : WF db) (hss : SalesSold db)
    (hstep : EngineStep A sheets now db db2) :
    SalesSold db2 ∧ SoldPersists db db2 := by
  cases hstep with
  | syncOne product platform hp =>
    have hu := sync_untouched A now db product platform
    exact sold_of_untouched hu.1 hu.2.1 hss
  | crossPost product platforms hp =>
    have hu := crossPostLoop_untouched A now product platforms db [] []
    exact sold_of_untouched hu.1 hu.2.1 hss
  | markSold pid platform sd =>
    exact ⟨mark_SalesSold A sheets now db pid platform sd hss,
      mark_SoldPersists A sheets now db pid platform sd⟩
  | checkSold =>
    exact checkProductsLoop_sold A sheets now _ db [] [] hss
  | syncAll =>
    have hu := syncAllLoop_untouched A now
      (db.listings.filter (fun l => l.needs_sync)) db []
    exact sold_of_untouched hu.1 hu.2.1 hss
  | importFrom platform =>
    exact import_sold A now db platform hwf hss

/-! ### Well-formedness of the concrete fixtures -/

theorem wf_dbJacket : WF dbJacket := by
  refine ⟨?_, ?_, ?_, ?_, ?_, ?_, ?_⟩ <;> decide

theorem wf_dbOneListing : WF dbOneListing := by
  refine ⟨?_, ?_, ?_, ?_, ?_, ?_, ?_⟩ <;> decide

theorem salesSold_dbOneListing : SalesSold dbOneListing := by
  intro s hs
  exact absurd hs (List.not_mem_nil s)

/-! ### The claims -/

/-- C2: for every product P and platform X, whenever
sync_product_to_platform(P, X) returns a non-null ListingRecord, that
record has needs_sync = false and sync_error (the last_error column) =
null.  All three returning branches of the source (update success, create
success on an existing row, create success on a fresh row) stamp exactly
these fields. -/
theorem c2_sync_nonnull_synced (A : Adapters) (now : Nat) (db : DB)
    (product : Product) (platform : Platform) (l : PlatformListing)
    (h : (sync_product_to_platform A now db product platform).1 = some l) :
    l.needs_sync = false ∧ l.sync_error = none := by
  rcases hfl : findListing db product.id platform with _ | l0
  · rcases hc : (A platform).create_listing (productData product) with e | r
    · simp [sync_product_to_platform, get_platform_integration_eq, hfl, hc] at h
    · by_cases htr : truthyStr r = true
      · simp [sync_product_to_platform, get_platform_integration_eq, hfl, hc,
          htr] at h
        subst h
        exact ⟨rfl, rfl⟩
      · simp [sync_product_to_platform, get_platform_integration_eq, hfl, hc,
          htr] at h
  · by_cases ht0 : truthyStr l0.platform_listing_id = true
    · rcases hu : (A platform).update_listing (l0.platform_listing_id.getD "")
          (productData product) with e | b
      · simp [sync_product_to_platform, get_platform_integration_eq, hfl, ht0,
          hu] at h
      · cases b
        · simp [sync_product_to_platform, get_platform_integration_eq, hfl,
            ht0, hu] at h
        · simp [sync_product_to_platform, get_platform_integration_eq, hfl,
            ht0, hu] at h
          subst h
          exact ⟨rfl, rfl⟩
    · rcases hc : (A platform).create_listing (productData product) with e | r
      · simp [sync_product_to_platform, get_platform_integration_eq, hfl, ht0,
          hc] at h
      · by_cases htr : truthyStr r = true
        · simp [sync_product_to_platform, get_platform_integration_eq, hfl,
            ht0, hc, htr] at h
          subst h
          exact ⟨rfl, rfl⟩
        · simp [sync_product_to_platform, get_platform_integration_eq, hfl,
            ht0, hc, htr] at h

/-- Witness for C2: pushing the Jacket to Vinted with an adapter whose
create succeeds returns the freshly created row, and the theorem applies
to it. -/
theorem c2_witness :
    (sync_product_to_platform okAdapters 0 dbJacket jacket Platform.vinted).1 =
      some jacketVintedRow ∧
    jacketVintedRow.needs_sync = false ∧ jacketVintedRow.sync_error = none :=
  ⟨by decide,
   c2_sync_nonnull_synced okAdapters 0 dbJacket jacket Platform.vinted
     jacketVintedRow (by decide)⟩

/-- C9: sync_product_to_platform returns the updated record or a null
result and does not raise for ordinary adapter failures.  The try/except of
the source catches every adapter exception, so the embedding of the
operation is a total function — no raising path exists at all; in
particular the only conceivable raise would be a programmer error outside
the adapter boundary, and an unknown platform is not even representable:
the integration lookup is total on the Platform enum (second conjunct), and
dict.get would return None rather than raise.  The first conjunct: whenever
the one adapter call the state selects fails — by raising or by returning a
falsy/False result — the operation returns null. -/
theorem c9_sync_failure_null (A : Adapters) (now : Nat) (db : DB)
    (product : Product) (platform : Platform)
    (hfail : relevantCallFails (A platform) db product platform = true) :
    (sync_product_to_platform A now db product platform).1 = none ∧
    get_platform_integration platform = some platform := by
  refine ⟨?_, get_platform_integration_eq platform⟩
  rcases hfl : findListing db product.id platform with _ | l0
  · simp only [relevantCallFails, hfl] at hfail
    rcases hc : (A platform).create_listing (productData product) with e | r
    · simp [sync_product_to_platform, get_platform_integration_eq, hfl, hc]
    · simp only [createFails, hc] at hfail
      have htr : truthyStr r = false := by simpa using hfail
      simp [sync_product_to_platform, get_platform_integration_eq, hfl, hc, htr]
  · simp only [relevantCallFails, hfl] at hfail
    by_cases ht0 : truthyStr l0.platform_listing_id = true
    · simp only [ht0, if_pos] at hfail
      rcases hu : (A platform).update_listing (l0.platform_listing_id.getD "")
          (productData product) with e | b
      · simp [sync_product_to_platform, get_platform_integration_eq, hfl, ht0, hu]
      · simp only [updateFails, hu] at hfail
        have hb : b = false := by simpa using hfail
        subst hb
        simp [sync_product_to_platform, get_platform_integration_eq, hfl, ht0, hu]
    · simp only [ht0, if_neg] at hfail
      rcases hc : (A platform).create_listing (productData product) with e | r
      · simp [sync_product_to_platform, get_platform_integration_eq, hfl, ht0, hc]
      · simp only [createFails, hc] at hfail
        have htr : truthyStr r = false := by simpa using hfail
        simp [sync_product_to_platform, get_platform_integration_eq, hfl, ht0,
          hc, htr]

/-- Witness for C9: an adapter whose create raises makes the sync of the
Jacket to Marktplaats return null rather than raise. -/
theorem c9_witness :
    relevantCallFails (downAdapters Platform.marktplaats) dbJacket jacket
      Platform.marktplaats = true ∧
    ((sync_product_to_platform downAdapters 0 dbJacket jacket
        Platform.marktplaats).1 = none ∧
      get_platform_integration Platform.marktplaats =
        some Platform.marktplaats) :=
  ⟨by decide,
   c9_sync_failure_null downAdapters 0 dbJacket jacket Platform.marktplaats
     (by decide)⟩

/-- Counterexample for C5 as stated: mark_product_as_sold accepts
sale_data = None (its default), sets the product status to SOLD, and then
skips sale creation entirely, so from a consistent store one engine
operation produces a store whose only product is SOLD while the sales
table is empty — SOLD does not imply that a SaleEvent exists. -/
theorem c5_counterexample :
    (mark_product_as_sold okAdapters noSheets 0 dbJacket 1 Platform.vinted
        none).2.1.products.map (fun p => (p.id, p.status)) =
      [(1, ProductStatus.sold)] ∧
    (mark_product_as_sold okAdapters noSheets 0 dbJacket 1 Platform.vinted
        none).2.1.sales = [] := by
  decide

/-- C5 amended: over a well-formed store, every engine operation preserves
the direction that holds of the code — every SaleEvent references a SOLD
product — and the SOLD status is one-directional: no engine operation ever
moves a product out of SOLD.  The converse direction of the claimed iff is
false (see the counterexample): markProductSold with no sale data sets SOLD
without emitting a SaleEvent. -/
theorem c5_sale_sold_invariant (A : Adapters) (sheets : SheetsBehavior)
    (now : Nat) {db db2 : DB} (hwf : WF db) (hss : SalesSold db)
    (hstep : EngineStep A sheets now db db2) :
    SalesSold db2 ∧ SoldPersists db db2 :=
  engineStep_sold A sheets now hwf hss hstep

/-- Witness for C5: marking the listed Jacket sold with operator sale data
preserves both sold invariants. -/
theorem c5_witness :
    SalesSold (mark_product_as_sold okAdapters noSheets 0 dbOneListing 1
      Platform.vinted (some saleData40)).2.1 ∧
    SoldPersists dbOneListing (mark_product_as_sold okAdapters noSheets 0
      dbOneListing 1 Platform.vinted (some saleData40)).2.1 :=
  c5_sale_sold_invariant okAdapters noSheets 0 wf_dbOneListing
    salesSold_dbOneListing
    (EngineStep.markSold dbOneListing 1 Platform.vinted (some saleData40))

/-- Counterexample for C6 as stated: the PlatformListing table declares no
uniqueness constraint on (product_id, platform) — only the primary key —
so inserting a second row for an occupied pair does not fail any uniqueness
check; the insert succeeds silently and the table then holds two rows for
the pair (1, vinted). -/
theorem c6_counterexample :
    ((addListing dbOneListing dupListing).listings.filter
      (fun l => l.product_id == 1 && l.platform == Platform.vinted)).length =
      2 := by
  decide

/-- C6 amended: at most one ListingRecord per (product_id, platform) is an
invariant the engine operations preserve — sync reuses an existing row
found by its query-first lookup and import skips external listings already
linked — but it is maintained by that query-first logic alone, not by a
uniqueness check: a direct second insert would succeed silently (see the
counterexample). -/
theorem c6_key_uniqueness_preserved (A : Adapters) (sheets : SheetsBehavior)
    (now : Nat) {db db2 : DB} (hwf : WF db)
    (hstep : EngineStep A sheets now db db2) :
    (db2.listings.map (fun l => (l.product_id, l.platform))).Pairwise
      (fun a b => a ≠ b) :=
  (engineStep_WF A sheets now hwf hstep).2.2.2.2.2.1

/-- Witness for C6: marking the listed Jacket sold keeps the listing table
free of duplicate (product_id, platform) pairs. -/
theorem c6_witness :
    ((mark_product_as_sold okAdapters noSheets 0 dbOneListing 1
        Platform.vinted none).2.1.listings.map
      (fun l => (l.product_id, l.platform))).Pairwise (fun a b => a ≠ b) :=
  c6_key_uniqueness_preserved okAdapters noSheets 0 wf_dbOneListing
    (EngineStep.markSold dbOneListing 1 Platform.vinted none)

/-- Counterexample for C1 as stated: cross-posting the fresh Jacket to
[marktplaats, vinted] where the Marktplaats adapter raises and the Vinted
adapter succeeds leaves Vinted synced, but leaves NO ListingRecord at all
for Marktplaats — the exception handler of sync_product_to_platform only
records last_error on an already existing row, and the create path creates
no row on failure — so in particular no record with needs_sync = true and
last_error set exists for the failing platform. -/
theorem c1_counterexample :
    (∃ l ∈ (cross_post_product mixedAdapters 0 dbJacket jacket
        [Platform.marktplaats, Platform.vinted]).2.1.listings,
      l.platform = Platform.vinted ∧ l.needs_sync = false ∧
        l.platform_listing_id = some "A1") ∧
    ¬ ∃ l ∈ (cross_post_product mixedAdapters 0 dbJacket jacket
        [Platform.marktplaats, Platform.vinted]).2.1.listings,
      l.platform = Platform.marktplaats := by
  decide

/-- C1 amended: cross-posting a product with no prior records to [A, B]
where the create call of adapter A fails (raises or returns a falsy id)
and the create call of adapter B succeeds does not raise, returns the
per-platform result map with A mapped to null and B mapped to the new row,
makes exactly the two create calls, leaves the record of B synced
(external id set, needs_sync false, no error), and
leaves no ListingRecord for (P, A): the failure is isolated to A but is
recorded nowhere, because no row for A exists to carry last_error or
needs_sync. -/
theorem c1_crossPost_failure_isolation (A : Adapters) (now : Nat) (db : DB)
    (product : Product) (pA pB : Platform) (hne : pA ≠ pB)
    (hnoA : findListing db product.id pA = none)
    (hnoB : findListing db product.id pB = none)
    (hAfail : createFails (A pA) (productData product) = true)
    (sB : String) (hsB : ¬ sB = "")
    (hBok : (A pB).create_listing (productData product) = Except.ok (some sB)) :
    ∃ lB : PlatformListing,
      cross_post_product A now db product [pA, pB] =
        ([(pA, none), (pB, some lB)], addListing db lB,
         [AdapterCall.createListing pA (productData product),
          AdapterCall.createListing pB (productData product)]) ∧
      lB.platform = pB ∧ lB.platform_listing_id = some sB ∧
      lB.needs_sync = false ∧ lB.sync_error = none ∧
      findListing (addListing db lB) product.id pA = none := by
  have hsyncA : sync_product_to_platform A now db product pA =
      (none, db, [AdapterCall.createListing pA (productData product)]) := by
    rcases hcA : (A pA).create_listing (productData product) with e | r
    · simp [sync_product_to_platform, get_platform_integration_eq, hnoA, hcA]
    · simp only [createFails, hcA] at hAfail
      have htr : truthyStr r = false := by simpa using hAfail
      simp [sync_product_to_platform, get_platform_integration_eq, hnoA, hcA, htr]
  have htrB : truthyStr (some sB) = true := by simp [truthyStr, hsB]
  refine ⟨{ id := db.nextListingId
            product_id := product.id
            platform := pB
            platform_listing_id := some sB
            listing_url := none
            platform_status := PlatformStatus.active
            last_synced_at := some now
            sync_error := none
            needs_sync := false }, ?_, rfl, rfl, rfl, rfl, ?_⟩
  · have hsyncB : sync_product_to_platform A now db product pB =
        (some { id := db.nextListingId
                product_id := product.id
                platform := pB
                platform_listing_id := some sB
                listing_url := none
                platform_status := PlatformStatus.active
                last_synced_at := some now
                sync_error := none
                needs_sync := false },
         addListing db { id := db.nextListingId
                         product_id := product.id
                         platform := pB
                         platform_listing_id := some sB
                         listing_url := none
                         platform_status := PlatformStatus.active
                         last_synced_at := some now
                         sync_error := none
                         needs_sync := false },
         [AdapterCall.createListing pB (productData product)]) := by
      simp [sync_product_to_platform, get_platform_integration_eq, hnoB, hBok, htrB]
    have hne2 : (pA == pB) = false := by
      simp [hne]
    simp [cross_post_product, crossPostLoop, hsyncA, hsyncB, dictInsert, hne2]
  · have h1 : db.listings.find?
        (fun l => l.product_id == product.id && l.platform == pA) = none := hnoA
    have hne3 : ¬ pB = pA := fun h => hne h.symm
    simp [findListing, addListing, List.find?_append, h1, hne3]

/-- Witness for C1 amended: the Jacket cross-posted to
[marktplaats, vinted] with the Marktplaats adapter down and the Vinted
adapter succeeding with id "A1". -/
theorem c1_witness :
    ∃ lB : PlatformListing,
      cross_post_product mixedAdapters 0 dbJacket jacket
          [Platform.marktplaats, Platform.vinted] =
        ([(Platform.marktplaats, none), (Platform.vinted, some lB)],
         addListing dbJacket lB,
         [AdapterCall.createListing Platform.marktplaats (productData jacket),
          AdapterCall.createListing Platform.vinted (productData jacket)]) ∧
      lB.platform = Platform.vinted ∧ lB.platform_listing_id = some "A1" ∧
      lB.needs_sync = false ∧ lB.sync_error = none ∧
      findListing (addListing dbJacket lB) jacket.id Platform.marktplaats =
        none :=
  c1_crossPost_failure_isolation mixedAdapters 0 dbJacket jacket
    Platform.marktplaats Platform.vinted (by decide) (by decide) (by decide)
    (by decide) "A1" (by decide) rfl

/-- Counterexample for C4 as stated: marking the Jacket sold while both
adapters raise on mark_as_sold does call markAsSold for both records, but
the status assignment sits after the awaited call inside the try block, so
when the call raises the record keeps its previous platform status — no
record is set to SOLD, contradicting "sets the platform status to SOLD
regardless of whether the remote call succeeded (including when it raises
an exception)". -/
theorem c4_counterexample :
    (mark_product_as_sold downAdapters noSheets 0 dbTwoListings 1
      Platform.vinted none).1 = true ∧
    (mark_product_as_sold downAdapters noSheets 0 dbTwoListings 1
        Platform.vinted none).2.2 =
      [AdapterCall.markAsSold Platform.vinted "V1",
       AdapterCall.markAsSold Platform.depop "D1"] ∧
    ∀ l ∈ (mark_product_as_sold downAdapters noSheets 0 dbTwoListings 1
        Platform.vinted none).2.1.listings,
      l.platform_status ≠ PlatformStatus.sold := by
  decide

/-- C4 amended: for every ListingRecord of the product, markProductSold
calls markAsSold on its adapter exactly when the record carries a truthy
external id; the platform status of the record is set to SOLD when the call
returns (whatever the returned success flag), but is left untouched when
the call raises, and a record without an external id is skipped without a
call and left untouched. -/
theorem c4_mark_sold_best_effort (A : Adapters) (sheets : SheetsBehavior)
    (now : Nat) (db : DB) (product_id : Nat) (platform : Platform)
    (sd : Option SaleData) (product : Product) (l : PlatformListing)
    (hfind : db.products.find? (fun p => p.id == product_id) = some product)
    (hdist : (db.listings.map PlatformListing.id).Pairwise (fun a b => a ≠ b))
    (hl : l ∈ db.listings) (hpid : l.product_id = product_id) :
    (truthyStr l.platform_listing_id = true →
      (AdapterCall.markAsSold l.platform (l.platform_listing_id.getD "") ∈
        (mark_product_as_sold A sheets now db product_id platform sd).2.2) ∧
      (∀ b, (A l.platform).mark_as_sold (l.platform_listing_id.getD "") =
          Except.ok b →
        { l with platform_status := PlatformStatus.sold } ∈
          (mark_product_as_sold A sheets now db product_id platform sd).2.1.listings) ∧
      (∀ e, (A l.platform).mark_as_sold (l.platform_listing_id.getD "") =
          Except.error e →
        l ∈ (mark_product_as_sold A sheets now db product_id platform sd).2.1.listings)) ∧
    (truthyStr l.platform_listing_id = false →
      l ∈ (mark_product_as_sold A sheets now db product_id platform sd).2.1.listings) := by
  have hlst := mark_listings A sheets now db product_id platform sd product hfind
  have htr := mark_trace A sheets now db product_id platform sd product hfind
  have hmem : l ∈ db.listings.filter (fun x => x.product_id == product_id) := by
    rw [List.mem_filter]
    exact ⟨hl, by simp [hpid]⟩
  have hdist2 : ((db.listings.filter (fun x => x.product_id == product_id)).map
      PlatformListing.id).Pairwise (fun a b => a ≠ b) :=
    hdist.sublist ((List.filter_sublist db.listings).map PlatformListing.id)
  have hsub : ∀ x ∈ db.listings.filter (fun x => x.product_id == product_id),
      x ∈ (replaceProduct db { product with status := ProductStatus.sold }).listings :=
    fun x hx => List.mem_of_mem_filter hx
  have hspec := markListingsLoop_spec A
    (db.listings.filter (fun x => x.product_id == product_id))
    (replaceProduct db { product with status := ProductStatus.sold }) [] l
    hmem hdist2 hsub
  constructor
  · intro ht
    rcases hspec.1 ht with ⟨htrace, hok, herr⟩
    refine ⟨?_, ?_, ?_⟩
    · rw [htr]
      exact htrace
    · intro b hb
      rw [hlst]
      exact hok b hb
    · intro e he
      rw [hlst]
      exact herr e he
  · intro ht
    rw [hlst]
    exact hspec.2 ht

/-- Witness for C4 amended: marking the Jacket sold with an adapter whose
mark_as_sold returns True calls markAsSold for the Vinted record and sets
it to SOLD. -/
theorem c4_witness :
    ((truthyStr listingV.platform_listing_id = true →
      (AdapterCall.markAsSold listingV.platform
          (listingV.platform_listing_id.getD "") ∈
        (mark_product_as_sold okAdapters noSheets 0 dbTwoListings 1
          Platform.vinted none).2.2) ∧
      (∀ b, (okAdapters listingV.platform).mark_as_sold
          (listingV.platform_listing_id.getD "") = Except.ok b →
        { listingV with platform_status := PlatformStatus.sold } ∈
          (mark_product_as_sold okAdapters noSheets 0 dbTwoListings 1
            Platform.vinted none).2.1.listings) ∧
      (∀ e, (okAdapters listingV.platform).mark_as_sold
          (listingV.platform_listing_id.getD "") = Except.error e →
        listingV ∈ (mark_product_as_sold okAdapters noSheets 0 dbTwoListings 1
          Platform.vinted none).2.1.listings)) ∧
    (truthyStr listingV.platform_listing_id = false →
      listingV ∈ (mark_product_as_sold okAdapters noSheets 0 dbTwoListings 1
        Platform.vinted none).2.1.listings)) :=
  c4_mark_sold_best_effort okAdapters noSheets 0 dbTwoListings 1
    Platform.vinted none jacket listingV (by decide) (by decide) (by decide)
    (by decide)

/-- Counterexample for C7 as stated: calling mark_product_as_sold twice on
the Jacket with the same sale data creates two SaleEvents with the
identical (product, platform, timestamp) triple — the second call does not
detect the existing SOLD status; the source checks only that the product
row exists before unconditionally appending a new sale row. -/
theorem c7_counterexample :
    ((mark_product_as_sold okAdapters noSheets 0
        (mark_product_as_sold okAdapters noSheets 0 dbJacket 1 Platform.vinted
          (some saleData40)).2.1
        1 Platform.vinted (some saleData40)).2.1.sales.map
      (fun s => (s.product_id, s.platform, s.sale_date))) =
      [(1, Platform.vinted, 100), (1, Platform.vinted, 100)] := by
  decide

/-- C7 amended: markProductSold is not idempotent in its local effect: for
every product present in the store, two consecutive calls with the same
sale data append two SaleEvents agreeing on (product, platform, timestamp);
the second call finds the product (now SOLD) and appends again rather than
detecting the SOLD status and skipping. -/
theorem c7_mark_sold_not_idempotent (A : Adapters) (sheets : SheetsBehavior)
    (now : Nat) (db : DB) (pid : Nat) (platform : Platform) (sdv : SaleData)
    (product : Product)
    (hfind : db.products.find? (fun p => p.id == pid) = some product) :
    ∃ s1 s2,
      (mark_product_as_sold A sheets now
        (mark_product_as_sold A sheets now db pid platform (some sdv)).2.1
        pid platform (some sdv)).2.1.sales = db.sales ++ [s1, s2] ∧
      s1.product_id = s2.product_id ∧ s1.platform = s2.platform ∧
      s1.sale_date = s2.sale_date := by
  rcases mark_sales_some A sheets now db pid platform sdv product hfind with
    ⟨s1, h1, h1pid, h1plat, h1date, _⟩
  have hfind2 := mark_find A sheets now db pid platform (some sdv) product hfind
  rcases mark_sales_some A sheets now
      (mark_product_as_sold A sheets now db pid platform (some sdv)).2.1 pid
      platform sdv { product with status := ProductStatus.sold } hfind2 with
    ⟨s2, h2, h2pid, h2plat, h2date, _⟩
  refine ⟨s1, s2, ?_, by rw [h1pid, h2pid], by rw [h1plat, h2plat],
    by rw [h1date, h2date]⟩
  rw [h2, h1, List.append_assoc]
  rfl

/-- Witness for C7 amended: two identical operator mark-sold calls on the
Jacket. -/
theorem c7_witness :
    ∃ s1 s2,
      (mark_product_as_sold okAdapters noSheets 0
        (mark_product_as_sold okAdapters noSheets 0 dbJacket 1 Platform.vinted
          (some saleData40)).2.1
        1 Platform.vinted (some saleData40)).2.1.sales =
        dbJacket.sales ++ [s1, s2] ∧
      s1.product_id = s2.product_id ∧ s1.platform = s2.platform ∧
      s1.sale_date = s2.sale_date :=
  c7_mark_sold_not_idempotent okAdapters noSheets 0 dbJacket 1 Platform.vinted
    saleData40 jacket (by decide)

/-- Counterexample for C8 as stated: when the get_listings of the platform
yields an external listing without an id — a shape the Vinted scraper
produces when the anchor element is missing — the import creates a
ListingRecord whose platform_listing_id is null, and the subsequent sync of
the imported product calls create_listing, not update_listing. -/
theorem c8_counterexample :
    (import_from_platform importNoIdAdapters 0 emptyDB Platform.vinted).1.length =
      1 ∧
    ∀ p ∈ (import_from_platform importNoIdAdapters 0 emptyDB
        Platform.vinted).1,
      (sync_product_to_platform importNoIdAdapters 0
        (import_from_platform importNoIdAdapters 0 emptyDB Platform.vinted).2.1
        p Platform.vinted).2.2 =
      [AdapterCall.createListing Platform.vinted (productData p)] := by
  decide

/-- C8 amended: after importFromPlatform, syncing an imported product whose
ListingRecord carries a truthy external id never calls the createListing
of the adapter — the existing-row lookup finds the record and all three
update branches only call updateListing.  The restriction to truthy ids is
forced by the counterexample: an imported record may carry a null id, and
those fall into the create path. -/
theorem c8_import_then_sync_updates (A : Adapters) (now now2 : Nat)
    (db db1 : DB) (platform : Platform) (prods : List Product)
    (tr : List AdapterCall) (p : Product) (l : PlatformListing)
    (_him : import_from_platform A now db platform = (prods, db1, tr))
    (_hp : p ∈ prods)
    (hfindl : findListing db1 p.id platform = some l)
    (htr : truthyStr l.platform_listing_id = true) (d : ProductData) :
    AdapterCall.createListing platform d ∉
      (sync_product_to_platform A now2 db1 p platform).2.2 := by
  rcases hu : (A platform).update_listing (l.platform_listing_id.getD "")
      (productData p) with e | b
  · simp [sync_product_to_platform, get_platform_integration_eq, hfindl, htr, hu]
  · cases b <;>
      simp [sync_product_to_platform, get_platform_integration_eq, hfindl, htr, hu]

/-- Witness for C8 amended: the Shirt imported with external id "X1" syncs
through the update path with no create call. -/
theorem c8_witness :
    AdapterCall.createListing Platform.vinted (productData shirtProduct) ∉
      (sync_product_to_platform importWithIdAdapters 0
        (import_from_platform importWithIdAdapters 0 emptyDB
          Platform.vinted).2.1
        shirtProduct Platform.vinted).2.2 :=
  c8_import_then_sync_updates importWithIdAdapters 0 0 emptyDB
    (import_from_platform importWithIdAdapters 0 emptyDB Platform.vinted).2.1
    Platform.vinted
    (import_from_platform importWithIdAdapters 0 emptyDB Platform.vinted).1
    (import_from_platform importWithIdAdapters 0 emptyDB Platform.vinted).2.2
    shirtProduct shirtListing rfl (by decide) (by decide) (by decide)
    (productData shirtProduct)

/-- C10: when an exception occurs inside importFromPlatform after some
products and listings have been added — here modelled by a malformed
adapter payload raising mid-loop — the single rollback of the handler
restores the database exactly to its state at the start of the call (no
commit has happened before the one at the end), while the function still
returns the imported_products list accumulated before the failure, so a
non-empty return value does not imply the returned products were
persisted. -/
theorem c10_import_rollback (A : Adapters) (now : Nat) (db : DB)
    (platform : Platform) (items : List ImportItem)
    (hg : (A platform).get_listings = Except.ok items)
    (herr : (importLoop platform now items db []).1 = none) :
    import_from_platform A now db platform =
      ((importLoop platform now items db []).2, db,
       [AdapterCall.getListings platform]) := by
  rcases hloop : importLoop platform now items db [] with ⟨odb, acc⟩
  rw [hloop] at herr
  simp only at herr
  subst herr
  simp [import_from_platform, get_platform_integration_eq, hg, hloop]

/-- Witness for C10: importing from an adapter that yields one well-formed
listing and then a malformed payload rolls the store back to empty while
returning the one accumulated product. -/
theorem c10_witness :
    (importLoop Platform.vinted 0
      [ImportItem.good shirtWithId, ImportItem.bad "not a dict"] emptyDB
      []).2.length = 1 ∧
    import_from_platform importCrashAdapters 0 emptyDB Platform.vinted =
      ((importLoop Platform.vinted 0
         [ImportItem.good shirtWithId, ImportItem.bad "not a dict"] emptyDB
         []).2, emptyDB,
       [AdapterCall.getListings Platform.vinted]) :=
  ⟨by decide,
   c10_import_rollback importCrashAdapters 0 emptyDB Platform.vinted
     [ImportItem.good shirtWithId, ImportItem.bad "not a dict"] rfl
     (by decide)⟩

/-- C3: for an ACTIVE product whose two ACTIVE ListingRecords are checked
by check_for_sold_items, if the first checked platform reports "sold" then
the product is marked SOLD, exactly one SaleEvent is appended — synthesized
from the current list price of the product with the current time — no
checkListingStatus call is made for the second platform of that product, and the
product appears in the returned list of newly discovered sales.  The store
holds the product under consideration; its two ACTIVE records are the
result of the listing query of the sweep, the first carrying a truthy external
id so that it is the first record actually checked. -/
theorem c3_first_sold_wins (A : Adapters) (sheets : SheetsBehavior)
    (now : Nat) (db : DB) (P : Product) (l1 l2 : PlatformListing)
    (hprod : db.products = [P])
    (hactive : P.status = ProductStatus.active)
    (hfilter : db.listings.filter
      (fun l => l.product_id == P.id &&
        l.platform_status == PlatformStatus.active) = [l1, l2])
    (hne : l1.platform ≠ l2.platform)
    (ht1 : truthyStr l1.platform_listing_id = true)
    (hsold : (A l1.platform).check_listing_status
      (l1.platform_listing_id.getD "") = Except.ok (some "sold")) :
    (check_for_sold_items A sheets now db).1 =
      [{ product_id := P.id, title := P.title, platform := l1.platform }] ∧
    (check_for_sold_items A sheets now db).2.1.products =
      [{ P with status := ProductStatus.sold }] ∧
    (∃ s, (check_for_sold_items A sheets now db).2.1.sales = db.sales ++ [s] ∧
      s.product_id = P.id ∧ s.platform = l1.platform ∧
      s.sale_price = P.price ∧ s.sale_date = now) ∧
    (∀ e, AdapterCall.checkListingStatus l2.platform e ∉
      (check_for_sold_items A sheets now db).2.2) := by
  have hfindP : db.products.find? (fun p => p.id == P.id) = some P := by
    rw [hprod]
    simp
  have hactiveFilter : db.products.filter
      (fun p => p.status == ProductStatus.active) = [P] := by
    rw [hprod]
    simp [hactive]
  have hinner : checkListingsLoop A sheets now P
      (db.listings.filter
        (fun l => l.product_id == P.id &&
          l.platform_status == PlatformStatus.active)) db [] =
      ((mark_product_as_sold A sheets now db P.id l1.platform
          (some (synthesizedSaleData P.price now))).2.1,
       some { product_id := P.id, title := P.title, platform := l1.platform },
       [AdapterCall.checkListingStatus l1.platform
          (l1.platform_listing_id.getD "")] ++
         (mark_product_as_sold A sheets now db P.id l1.platform
           (some (synthesizedSaleData P.price now))).2.2) := by
    rw [hfilter]
    simp [checkListingsLoop, get_platform_integration_eq, ht1, hsold]
  have houter : check_for_sold_items A sheets now db =
      ([{ product_id := P.id, title := P.title, platform := l1.platform }],
       (mark_product_as_sold A sheets now db P.id l1.platform
         (some (synthesizedSaleData P.price now))).2.1,
       [AdapterCall.checkListingStatus l1.platform
          (l1.platform_listing_id.getD "")] ++
         (mark_product_as_sold A sheets now db P.id l1.platform
           (some (synthesizedSaleData P.price now))).2.2) := by
    simp [check_for_sold_items, hactiveFilter, checkProductsLoop, hinner]
  refine ⟨?_, ?_, ?_, ?_⟩
  · rw [houter]
  · rw [houter]
    rw [mark_products A sheets now db P.id l1.platform
      (some (synthesizedSaleData P.price now)) P hfindP]
    simp only [replaceProduct]
    rw [hprod]
    simp
  · rcases mark_sales_some A sheets now db P.id l1.platform
        (synthesizedSaleData P.price now) P hfindP with
      ⟨s, hseq, hspid, hsplat, hsdate, hsprice⟩
    refine ⟨s, ?_, hspid, hsplat, ?_, ?_⟩
    · rw [houter]
      exact hseq
    · rw [hsprice]
      simp [synthesizedSaleData]
    · rw [hsdate]
      simp [synthesizedSaleData]
  · intro e hmem
    rw [houter] at hmem
    rcases List.mem_append.mp hmem with hmem | hmem
    · rw [List.mem_singleton] at hmem
      have : l2.platform = l1.platform := by
        injection hmem
      exact hne this.symm
    · rw [mark_trace A sheets now db P.id l1.platform
        (some (synthesizedSaleData P.price now)) P hfindP] at hmem
      rcases markListingsLoop_trace A
          (db.listings.filter (fun l => l.product_id == P.id))
          (replaceProduct db { P with status := ProductStatus.sold }) [] with
        ⟨t, htr2, hall⟩
      rw [htr2] at hmem
      simp only [List.nil_append] at hmem
      rcases hall _ hmem with ⟨p2, e3, hce⟩
      exact absurd hce (by simp)

/-- Witness for C3: the Jacket listed ACTIVE on Vinted and Depop, with
every platform reporting "sold": the Vinted check wins, one sale at price
40 is created, and no check call for the Depop listing is made. -/
theorem c3_witness :
    (check_for_sold_items soldAdapters noSheets 7 dbTwoListings).1 =
      [{ product_id := jacket.id, title := jacket.title,
         platform := listingV.platform }] ∧
    (check_for_sold_items soldAdapters noSheets 7 dbTwoListings).2.1.products =
      [{ jacket with status := ProductStatus.sold }] ∧
    (∃ s, (check_for_sold_items soldAdapters noSheets 7
        dbTwoListings).2.1.sales = dbTwoListings.sales ++ [s] ∧
      s.product_id = jacket.id ∧ s.platform = listingV.platform ∧
      s.sale_price = jacket.price ∧ s.sale_date = 7) ∧
    AdapterCall.checkListingStatus listingD.platform "D1" ∉
      (check_for_sold_items soldAdapters noSheets 7 dbTwoListings).2.2 := by
  have H := c3_first_sold_wins soldAdapters noSheets 7 dbTwoListings jacket
    listingV listingD (by decide) (by decide) (by decide) (by decide)
    (by decide) rfl
  exact ⟨H.1, H.2.1, H.2.2.1, H.2.2.2 "D1"⟩

end CRM
